import Mathlib

/-!
Verification of the TVE-micro extruder control core against its design
specification.

This file shallowly embeds the claim-relevant parts of the backend:
backend/pid.py (PID controller), backend/safety.py (SafetyMonitor),
backend/autotune.py (relay-feedback AutoTuner), backend/alarm_utils.py
(alarm records and persistence), and the control-loop / command slice of
backend/app.py.  Machine floats are idealised as rationals; the special
float values None/NaN/inf that the Python code inspects are made explicit
through the Reading type.  All definitions are computable so concrete
executions can be checked by the kernel.
-/

namespace TVE

/-- Substring test on character lists (needle occurs as a prefix). -/
def leadsWith : List Char → List Char → Bool
  | [], _ => true
  | _ :: _, [] => false
  | a :: as, b :: bs => a == b && leadsWith as bs

/-- Substring containment on character lists. -/
def hasSub (needle : List Char) : List Char → Bool
  | [] => leadsWith needle []
  | c :: t => leadsWith needle (c :: t) || hasSub needle t

/-- Python-style `needle in hay` for strings. -/
def strContains (hay needle : String) : Bool :=
  hasSub needle.data hay.data

/-- One raw sensor reading as the Python code can observe it:
a missing key (`dict.get` returning `None`), a NaN float, an infinite
float, a finite float (idealised as a rational), or a non-numeric value
(e.g. a bool, rejected by the `isinstance` check in `_safe_temp`). -/
inductive Reading where
  | missing
  | nan
  | inf
  | ninf
  | num (q : ℚ)
  | nonNum
deriving DecidableEq, Repr

/-- IEEE-style strict less-than on readings: any comparison with NaN is
false; infinities compare as expected.  `missing`/`nonNum` never reach a
float comparison in the embedded code paths. -/
def Reading.pyLt : Reading → Reading → Bool
  | .num a, .num b => a < b
  | .num _, .inf => true
  | .ninf, .num _ => true
  | .ninf, .inf => true
  | _, _ => false

/-- Python `a > b` on readings. -/
def Reading.pyGt (a b : Reading) : Bool := Reading.pyLt b a

/-- Python `a > q` against a finite literal. -/
def Reading.pyGtQ (a : Reading) (q : ℚ) : Bool := Reading.pyLt (.num q) a

/-- Python `a < q` against a finite literal. -/
def Reading.pyLtQ (a : Reading) (q : ℚ) : Bool := Reading.pyLt a (.num q)

/-- Python `min(a, b)` over floats (no NaN among inputs in embedded paths):
returns `b` exactly when `b < a`. -/
def pyMin (a b : Reading) : Reading := if Reading.pyLt b a then b else a

/-- Model of `math.isfinite` on a reading. -/
def Reading.isFiniteB : Reading → Bool
  | .num _ => true
  | _ => false

/- ------------------------------------------------------------------
SafetyMonitor (backend/safety.py)
------------------------------------------------------------------ -/

/-- The temperature limits held in `SafetyMonitor.LIMITS`. -/
structure SafetyLimits where
  tempMotorMax : ℚ
  tempHeatersMax : ℚ
  minTempForMotor : ℚ
deriving DecidableEq, Repr

/-- Default limits from `SafetyMonitor.__init__`:
motor 65 °C, heaters 280 °C, cold-extrusion floor 170 °C. -/
def defaultLimits : SafetyLimits := ⟨65, 280, 170⟩

/-- Model of `SafetyMonitor._safe_temp`: `dict.get` misses, non-numeric values and
NaN all become `None`; infinities are floats and pass through. -/
def safeTemp : Reading → Option Reading
  | .num q => some (.num q)
  | .inf => some .inf
  | .ninf => some .ninf
  | _ => none

/-- Model of `SafetyMonitor.check`: priority-ordered fail-closed evaluation of the
driver fault flag, the motor temperature and both heater-zone
temperatures.  Returns `(is_safe, reason)`. -/
def safetyCheck (L : SafetyLimits) (motorFault : Bool) (motorT t2 t3 : Reading) :
    Bool × String :=
  if motorFault then (false, "DM556 DRIVER FAULT (Check Blinks)")
  else if motorT = .missing then (false, "MOTOR_TEMP_SENSOR_FAILURE")
  else
    match safeTemp motorT with
    | none => (false, "MOTOR_SENSOR_FAILURE")
    | some m =>
      if m.pyGtQ L.tempMotorMax then (false, "MOTOR OVERHEAT")
      else
        match safeTemp t2, safeTemp t3 with
        | some a, some b =>
          if a.pyGtQ L.tempHeatersMax || b.pyGtQ L.tempHeatersMax then
            (false, "HEATER THERMAL RUNAWAY")
          else (true, "OK")
        | _, _ => (false, "HEATER_SENSOR_FAILURE")

/-- Model of `SafetyMonitor.guard_motor_temp`: cold-extrusion interlock. -/
def guardMotorTemp (L : SafetyLimits) (t2 t3 : Reading) : Bool × String :=
  match safeTemp t2, safeTemp t3 with
  | some a, some b =>
    if (pyMin a b).pyLtQ L.minTempForMotor then (false, "COLD_EXTRUSION_PROTECTION")
    else (true, "OK")
  | _, _ => (false, "HEATER_SENSOR_FAILURE")

/- ------------------------------------------------------------------
PID controller (backend/pid.py)
------------------------------------------------------------------ -/

/-- The full state of one `PID` instance. -/
structure PidState where
  kp : ℚ
  ki : ℚ
  kd : ℚ
  setpoint : ℚ
  sampleTime : ℚ
  minOut : ℚ
  maxOut : ℚ
  lastTime : ℚ
  lastInput : Option ℚ
  integral : ℚ
deriving DecidableEq, Repr

/-- Model of `PID.__init__` with `output_limits = (minOut, maxOut)` at time `now`. -/
def PID.init (kp ki kd setpoint sampleTime minOut maxOut now : ℚ) : PidState :=
  ⟨kp, ki, kd, setpoint, sampleTime, minOut, maxOut, now, none, 0⟩

/-- Model of `PID.reset`: clear integral and derivative memory at time `now`. -/
def PID.reset (s : PidState) (now : ℚ) : PidState :=
  { s with integral := 0, lastInput := none, lastTime := now }

/-- The term `error = self.setpoint - input_val`. -/
def pidError (s : PidState) (x : ℚ) : ℚ := s.setpoint - x

/-- The term `d_input = 0 if self._last_input is None else (input_val - self._last_input) / dt`. -/
def pidDInput (s : PidState) (x now : ℚ) : ℚ :=
  match s.lastInput with
  | none => 0
  | some li => (x - li) / (now - s.lastTime)

/-- The term `proposed_integral = self._integral + error * dt`. -/
def pidProposed (s : PidState) (x now : ℚ) : ℚ :=
  s.integral + pidError s x * (now - s.lastTime)

/-- The term `unsat_output = kp*error + ki*proposed_integral - kd*d_input`. -/
def pidUnsat (s : PidState) (x now : ℚ) : ℚ :=
  s.kp * pidError s x + s.ki * pidProposed s x now - s.kd * pidDInput s x now

/-- The term `output = max(min(unsat_output, max_out), min_out)`. -/
def pidOutput (s : PidState) (x now : ℚ) : ℚ :=
  max (min (pidUnsat s x now) s.maxOut) s.minOut

/-- The flag `at_upper_limit = output >= max_out and unsat_output >= max_out`. -/
abbrev pidAtUpper (s : PidState) (x now : ℚ) : Prop :=
  s.maxOut ≤ pidOutput s x now ∧ s.maxOut ≤ pidUnsat s x now

/-- The flag `at_lower_limit = output <= min_out and unsat_output <= min_out`. -/
abbrev pidAtLower (s : PidState) (x now : ℚ) : Prop :=
  pidOutput s x now ≤ s.minOut ∧ pidUnsat s x now ≤ s.minOut

/-- The anti-windup gate guarding the integral update:
`not (at_upper_limit and error > 0) and not (at_lower_limit and error < 0)`. -/
abbrev pidCommit (s : PidState) (x now : ℚ) : Prop :=
  ¬(pidAtUpper s x now ∧ 0 < pidError s x) ∧
  ¬(pidAtLower s x now ∧ pidError s x < 0)

/-- Model of `PID.compute(input_val)` at wall-clock time `now`.  Returns the new
controller state and `some output`, or `none` when rate-limited or fed a
missing/non-finite measurement. -/
def PID.compute (s : PidState) (inputVal : Reading) (now : ℚ) :
    PidState × Option ℚ :=
  if now - s.lastTime < s.sampleTime then (s, none)
  else
    match inputVal with
    | .num x =>
      ({ s with
         integral :=
           if pidCommit s x now then
             max (min (pidProposed s x now) s.maxOut) s.minOut
           else s.integral,
         lastInput := some x,
         lastTime := now },
       some (pidOutput s x now))
    | _ =>
      -- `input_val is None or not math.isfinite(input_val)`: refresh the
      -- sample clock, leave everything else untouched, signal skip.
      ({ s with lastTime := now }, none)

/- ------------------------------------------------------------------
AutoTuner (backend/autotune.py)
------------------------------------------------------------------ -/

/-- One recorded oscillation peak: `{"t": t, "val": val, "type": kind}`
with `kind` one of `"max"`/`"min"`. -/
structure Peak where
  t : ℚ
  val : ℚ
  kind : String
deriving DecidableEq, Repr

/-- The full state of the `AutoTuner` instance.  `detectedParams` holds the
rational pair `(Pu, amplitude)`; the ultimate gain `Ku` is the derived real
number `tunerKu tunePower amplitude` (it involves π). -/
structure TunerState where
  outputMin : ℚ
  outputMax : ℚ
  active : Bool
  zoneName : Option String
  setpoint : ℚ
  tunePower : ℚ
  hysteresis : ℚ
  cyclesRequired : ℚ
  state : String
  cycleCount : ℚ
  peaks : List Peak
  startTime : ℚ
  localExtremum : Option ℚ
  detectedParams : Option (ℚ × ℚ)
deriving DecidableEq, Repr

/-- Model of `AutoTuner.__init__(output_min, output_max)` (which calls `reset`). -/
def AutoTuner.init (omin omax : ℚ) : TunerState :=
  { outputMin := omin, outputMax := omax, active := false, zoneName := none,
    setpoint := 0, tunePower := 70, hysteresis := 1/2, cyclesRequired := 3,
    state := "IDLE", cycleCount := 0, peaks := [], startTime := 0,
    localExtremum := none, detectedParams := none }

/-- Model of `AutoTuner.reset`: clear everything but the output bounds. -/
def AutoTuner.reset (s : TunerState) : TunerState :=
  AutoTuner.init s.outputMin s.outputMax

/-- Model of `AutoTuner.start(zone_name, setpoint, tune_power)` at time `now`:
reset, then activate with `tune_power = max(10.0, min(output_max, tune_power))`. -/
def AutoTuner.start (s : TunerState) (zone : String) (setpoint tunePower now : ℚ) :
    TunerState :=
  { AutoTuner.reset s with
    active := true,
    zoneName := some zone,
    setpoint := setpoint,
    tunePower := max 10 (min s.outputMax tunePower),
    state := "HEATING",
    startTime := now,
    localExtremum := none }

/-- Model of `AutoTuner.stop`. -/
def AutoTuner.stop (s : TunerState) : TunerState :=
  { s with active := false, state := "IDLE" }

/-- Model of `AutoTuner._record_peak`: peaks are only stored once the first
transient cycle has passed (`cycle_count >= 1.0`). -/
def AutoTuner.recordPeak (s : TunerState) (t val : ℚ) (kind : String) : TunerState :=
  if 1 ≤ s.cycleCount then { s with peaks := s.peaks ++ [⟨t, val, kind⟩] }
  else s

/-- The period list of `_calculate_result`: deltas between peak `i` and
peak `i-2` whenever both have the same type (the `zip` pairs each peak
with the one two positions earlier). -/
def periodsOf (peaks : List Peak) : List ℚ :=
  ((peaks.drop 2).zip peaks).filterMap fun pp =>
    if pp.1.kind = pp.2.kind then some (pp.1.t - pp.2.t) else none

/-- Model of `AutoTuner._calculate_result` on a peak list: fail with fewer than 4
peaks or no same-type deltas, else return `(Pu, amplitude)` where `Pu` is
the mean delta and `amplitude` the floored half-distance between the mean
max peak and mean min peak.  (The empty-average division is total here
where Python would raise; no embedded code path reaches it.) -/
def calculateResult (peaks : List Peak) : Option (ℚ × ℚ) :=
  if peaks.length < 4 then none
  else
    let periods := periodsOf peaks
    if periods = [] then none
    else
      let pu := periods.sum / (periods.length : ℚ)
      let maxs := (peaks.filter fun p => p.kind = "max").map Peak.val
      let mins := (peaks.filter fun p => p.kind = "min").map Peak.val
      let avgMax := maxs.sum / (maxs.length : ℚ)
      let avgMin := mins.sum / (mins.length : ℚ)
      let amplitude0 := (avgMax - avgMin) / 2
      let amplitude := if amplitude0 ≤ 1/1000 then 1/1000 else amplitude0
      some (pu, amplitude)

/-- The gain `Ku = (4.0 * d) / (math.pi * amplitude)` — the ultimate gain derived
from the relay power `d` and the floored oscillation amplitude. -/
noncomputable def tunerKu (d amplitude : ℚ) : ℝ :=
  (4 * (d : ℝ)) / (Real.pi * (amplitude : ℝ))

/-- Model of `AutoTuner.update(input_val)` at time `now`.  The tick feeds it the raw
zone reading; a missing reading deactivates nothing and returns no output.
NaN/∞ readings are outside the rational embedding and are mapped to `none`
at the call boundary (see `readingToOpt`). -/
def AutoTuner.update (s : TunerState) (inputVal : Option ℚ) (now : ℚ) :
    TunerState × Option ℚ :=
  if ¬s.active then (s, none)
  else
    match inputVal with
    | none => (s, none)
    | some x =>
      if 1800 < now - s.startTime then
        ({ s with state := "FAILED", active := false }, some 0)
      else
        -- initialize the local extremum on the first tick
        let s := if s.localExtremum = none then { s with localExtremum := some x } else s
        let ext := s.localExtremum.getD x
        let step : TunerState × ℚ :=
          if s.state = "HEATING" then
            let ext2 := if ext < x then x else ext
            if s.setpoint + s.hysteresis < x then
              let s2 := AutoTuner.recordPeak
                { s with state := "COOLING", localExtremum := some x } now ext2 "max"
              (s2, s.outputMin)
            else ({ s with localExtremum := some ext2 }, s.tunePower)
          else if s.state = "COOLING" then
            let ext2 := if x < ext then x else ext
            if x < s.setpoint - s.hysteresis then
              -- record with the pre-increment cycle count, then add 0.5
              let s2 := AutoTuner.recordPeak
                { s with state := "HEATING", localExtremum := some x } now ext2 "min"
              ({ s2 with cycleCount := s2.cycleCount + 1/2 }, s.tunePower)
            else ({ s with localExtremum := some ext2 }, s.outputMin)
          else (s, 0)
        let s2 := step.1
        if s2.cyclesRequired ≤ s2.cycleCount then
          match calculateResult s2.peaks with
          | some pr =>
            ({ s2 with state := "DONE", active := false, detectedParams := some pr },
             some 0)
          | none =>
            ({ s2 with state := "FAILED", active := false }, some 0)
        else (s2, some step.2)

/- ------------------------------------------------------------------
Alarm records and persistence (backend/alarm_utils.py)
------------------------------------------------------------------ -/

/-- One alarm record as produced by `create_alarm_object`.  The Python
`type` key is `rtype` here. -/
structure AlarmRecord where
  id : String
  rtype : String
  severity : String
  message : String
  timestamp : ℚ
  acknowledged : Bool
  cleared : Bool
deriving DecidableEq, Repr

/-- Model of `create_alarm_object(reason, severity)`; the fresh uuid and the wall
clock are passed in explicitly. -/
def createAlarmObject (newId reason severity : String) (now : ℚ) : AlarmRecord :=
  ⟨newId, reason, severity, reason, now, false, false⟩

/-- The file contents written by `save_alarms_to_disk`: the rolling window
`history[-1000:]` of the given in-memory history. -/
def saveAlarmsToDisk (history : List AlarmRecord) : List AlarmRecord :=
  history.drop (history.length - 1000)

/-- Severity derivation in `_latch_alarm`:
`"EMERGENCY" in reason or "CRITICAL" in reason`. -/
def severityOf (reason : String) : String :=
  if strContains reason "EMERGENCY" || strContains reason "CRITICAL" then "CRITICAL"
  else "WARNING"

/- ------------------------------------------------------------------
Shared runtime state and control-loop helpers (backend/app.py)
------------------------------------------------------------------ -/

/-- The temperatures dictionary `state["temps"]` restricted to the keys
the control core reads: the two heater zones and the motor sensor. -/
structure Temps where
  t2 : Reading
  t3 : Reading
  motor : Reading
deriving DecidableEq, Repr

/-- The dict `state["motors"]`. -/
structure MotorsState where
  main : ℚ
  feed : ℚ
deriving DecidableEq, Repr

/-- The dict `state["relays"]`. -/
structure RelaysState where
  fan : Bool
  pump : Bool
deriving DecidableEq, Repr

/-- The slice of the shared `state` dict that the embedded control paths
read and write. -/
structure AppState where
  status : String
  mode : String
  targetZ1 : ℚ
  targetZ2 : ℚ
  temps : Temps
  tempsTimestamp : ℚ
  motors : MotorsState
  relays : RelaysState
  pwm : List (String × ℚ)
  peltierDuty : ℚ
  heaterDutyZ1 : ℚ
  heaterDutyZ2 : ℚ
  manualDutyZ1 : ℚ
  manualDutyZ2 : ℚ
  activeAlarms : List AlarmRecord
  alarmHistory : List AlarmRecord
  persistedAlarms : List AlarmRecord
  seqStartTime : ℚ
  autotuneStatus : String
  autotuneCycle : ℚ
  autotuneResult : Option (ℚ × ℚ)
deriving DecidableEq, Repr

/-- The most recent value commanded to each actuator through the hardware
layer (`hal.set_*`), plus the fixed pwm channel list. -/
structure HalCmd where
  heaterZ1 : ℚ
  heaterZ2 : ℚ
  motorMain : ℚ
  motorFeed : ℚ
  fan : Bool
  pump : Bool
  peltier : ℚ
  pwm : List (String × ℚ)
  pwmChannels : List String
  led : Bool
deriving DecidableEq, Repr

/-- Point update of a string-keyed association list (dict write). -/
def setKey (l : List (String × ℚ)) (k : String) (v : ℚ) : List (String × ℚ) :=
  l.map fun kv => if kv.1 = k then (k, v) else kv

/-- Model of `_all_outputs_off`: command every actuator off and mirror that into
the shared state. -/
def allOutputsOff (cmd : HalCmd) (app : AppState) : HalCmd × AppState :=
  ({ cmd with
     heaterZ1 := 0, heaterZ2 := 0, motorMain := 0, motorFeed := 0,
     fan := false, pump := false, peltier := 0,
     pwm := cmd.pwmChannels.foldl (fun l name => setKey l name 0) cmd.pwm },
   { app with
     motors := ⟨0, 0⟩, relays := ⟨false, false⟩, peltierDuty := 0,
     pwm := app.pwm.map fun kv => (kv.1, 0) })

/-- The loop-local and module-global mutable variables of `control_loop`:
poll clock, previous status, sequence bookkeeping, the cached `temps`
local, button edge memories, the pending-clear flag and the run-permission
event. -/
structure LoopLocals where
  lastPollTime : ℚ
  prevStatus : Option String
  seqActionsDone : List String
  seqSnapshotMotors : MotorsState
  seqSnapshotRelays : RelaysState
  seqSnapshotPwm : List (String × ℚ)
  tempsLocal : Option Temps
  lastBtnStart : Bool
  lastBtnStop : Bool
  alarmClearPending : Bool
  runningEvent : Bool
deriving DecidableEq, Repr

/-- Result record of `_latch_alarm`. -/
structure LatchResult where
  cmd : HalCmd
  app : AppState
  loop : LoopLocals
deriving DecidableEq, Repr

/-- Model of `_latch_alarm(reason)`: derive severity, drop run permission, force all
outputs off, restart the sequence clock, reset the button edge memories,
append a new alarm record unless an uncleared active record with the same
reason exists, and enter ALARM. -/
def latchAlarm (reason : String) (now : ℚ) (newId : String)
    (cmd : HalCmd) (app : AppState) (loop : LoopLocals) : LatchResult :=
  let severity := severityOf reason
  let loop := { loop with runningEvent := false,
                          lastBtnStart := false, lastBtnStop := false }
  let (cmd, app) := allOutputsOff cmd app
  let app := { app with seqStartTime := now }
  let hasActive := app.activeAlarms.any fun a => a.rtype == reason && !a.cleared
  let app :=
    if hasActive then app
    else
      let newAlarm := createAlarmObject newId reason severity now
      let hist := app.alarmHistory ++ [newAlarm]
      { app with activeAlarms := app.activeAlarms ++ [newAlarm],
                 alarmHistory := hist,
                 persistedAlarms := saveAlarmsToDisk hist }
  ⟨cmd, { app with status := "ALARM" }, loop⟩

/-- Model of `_set_status(new_status)`: flip the status and maintain
`seq_start_time` (cleared on READY/RUNNING, stamped on a real transition). -/
def setStatus (app : AppState) (newStatus : String) (now : ℚ) : AppState :=
  if newStatus = "READY" ∨ newStatus = "RUNNING" then
    { app with status := newStatus, seqStartTime := 0 }
  else if app.status ≠ newStatus then
    { app with status := newStatus, seqStartTime := now }
  else
    { app with status := newStatus }

/-- A baseline alarm record used for the history-cap counterexample. -/
def histRecord : AlarmRecord :=
  ⟨"h0", "MOTOR OVERHEAT", "WARNING", "MOTOR OVERHEAT", 1, false, false⟩

/-- An application state whose in-memory alarm history already holds 1000
records and whose active set is empty. -/
def fullHistApp : AppState :=
  { status := "RUNNING", mode := "AUTO", targetZ1 := 200, targetZ2 := 200,
    temps := ⟨.num 200, .num 200, .num 30⟩, tempsTimestamp := 4,
    motors := ⟨0, 0⟩, relays := ⟨false, false⟩, pwm := [],
    peltierDuty := 0, heaterDutyZ1 := 0, heaterDutyZ2 := 0,
    manualDutyZ1 := 0, manualDutyZ2 := 0,
    activeAlarms := [], alarmHistory := List.replicate 1000 histRecord,
    persistedAlarms := List.replicate 1000 histRecord,
    seqStartTime := 0, autotuneStatus := "IDLE", autotuneCycle := 0,
    autotuneResult := none }

/- ------------------------------------------------------------------
Sequencer (backend/app.py: _apply_sequence_action, _process_sequence_phase)
------------------------------------------------------------------ -/

/-- One step of the extruder sequence configuration. -/
structure SeqStep where
  device : String
  action : String
  delay : ℚ
  enabled : Bool
deriving DecidableEq, Repr

/-- The built-in all-off fallback used for an unconfigured shutdown or
emergency phase. -/
def defaultOffSteps : List SeqStep :=
  [⟨"feed_motor", "off", 0, true⟩, ⟨"main_motor", "off", 0, true⟩,
   ⟨"fan", "off", 0, true⟩, ⟨"pump", "off", 0, true⟩]

/-- Model of `_apply_sequence_action(step, snapshot)`: drive one device; an `on`
action restores the snapshot motor value, or a 10 rpm jog when the
snapshot value is zero (Python `or 10.0` on a falsy 0.0). -/
def applySequenceAction (step : SeqStep) (snapM : MotorsState)
    (cmd : HalCmd) (app : AppState) : HalCmd × AppState :=
  if step.enabled = false then (cmd, app)
  else
    let actOn := step.action = "on"
    if step.device = "main_motor" then
      let target := if snapM.main = 0 then 10 else snapM.main
      let v := if actOn then target else 0
      ({ cmd with motorMain := v },
       { app with motors := { app.motors with main := v } })
    else if step.device = "feed_motor" then
      let target := if snapM.feed = 0 then 10 else snapM.feed
      let v := if actOn then target else 0
      ({ cmd with motorFeed := v },
       { app with motors := { app.motors with feed := v } })
    else if step.device = "fan" then
      ({ cmd with fan := actOn }, { app with relays := { app.relays with fan := actOn } })
    else if step.device = "pump" then
      ({ cmd with pump := actOn }, { app with relays := { app.relays with pump := actOn } })
    else (cmd, app)

/-- The loop body of `_process_sequence_phase`: skip steps already fired
(per `phase:device` key) or whose delay has not elapsed, otherwise apply
the action and mark the key fired. -/
def seqStepFold (phase : String) (elapsed : ℚ) (snapM : MotorsState)
    (acc : List String × HalCmd × AppState) (step : SeqStep) :
    List String × HalCmd × AppState :=
  let delay := max 0 step.delay
  let key := phase ++ ":" ++ step.device
  if key ∈ acc.1 then acc
  else if delay ≤ elapsed + 1/1000000000 then
    let r := applySequenceAction step snapM acc.2.1 acc.2.2
    (acc.1 ++ [key], r.1, r.2)
  else acc

/-- Model of `_process_sequence_phase(phase, seq_cfg, start_time, now, actions_done,
snapshot)`: returns `(done, actions_done, commands, state)`. -/
def processSequencePhase (phase : String) (cfgSteps : List SeqStep)
    (startTime now : ℚ) (done : List String) (snapM : MotorsState)
    (cmd : HalCmd) (app : AppState) :
    Bool × List String × HalCmd × AppState :=
  let steps0 := cfgSteps.filter fun s => s.enabled
  let steps :=
    if steps0 = [] ∧ (phase = "shutdown" ∨ phase = "emergency") then defaultOffSteps
    else steps0
  let maxDelay :=
    match steps.map fun s => s.delay with
    | [] => 0
    | d :: ds => ds.foldl max d
  let elapsed := if startTime ≠ 0 then now - startTime else 0
  let st := steps.foldl (seqStepFold phase elapsed snapM) (done, cmd, app)
  (steps.length ≤ st.1.length ∨ maxDelay + 1 ≤ elapsed, st.1, st.2.1, st.2.2)

/- ------------------------------------------------------------------
Control loop tick (backend/app.py: control_loop body)
------------------------------------------------------------------ -/

/-- The configuration slice the loop body reads each tick. -/
structure Cfg where
  pollInterval : ℚ
  freshnessTimeout : Option ℚ
  checkTempBeforeStart : Bool
  seqStartup : List SeqStep
  seqShutdown : List SeqStep
  seqEmergency : List SeqStep
  limits : SafetyLimits
deriving Repr

/-- Everything the hardware layer reports on one tick. -/
structure HalIn where
  btnEmergency : Bool
  btnStart : Bool
  btnStop : Bool
  temps : Temps
  lastTempTs : ℚ
  sensorTsT2 : ℚ
  sensorTsT3 : ℚ
  motorFault : Bool
  motorsMain : ℚ
  motorsFeed : ℚ
  fan : Bool
  pump : Bool
  pwmOutputs : List (String × ℚ)
deriving DecidableEq, Repr

/-- The whole mutable world one tick acts on: shared state, loop locals,
commanded outputs, the two PID controllers and the auto-tuner. -/
structure World where
  app : AppState
  loop : LoopLocals
  cmd : HalCmd
  pidZ1 : PidState
  pidZ2 : PidState
  tuner : TunerState
deriving DecidableEq, Repr

/-- Button edges and the pending alarm request computed early in a tick. -/
structure TickEdges where
  startEvent : Bool
  stopEvent : Bool
  alarmReq : Option String
deriving DecidableEq, Repr

/-- Dict update-or-insert for the pwm mirror. -/
def setKeyAdd (l : List (String × ℚ)) (k : String) (v : ℚ) : List (String × ℚ) :=
  if l.any fun kv => kv.1 == k then setKey l k v else l ++ [(k, v)]

/-- The raw zone reading handed to `AutoTuner.update`.  A missing reading
is Python `None`; NaN/∞ lie outside this rational embedding and are also
mapped to `none` here (Python would pass them through the float
comparisons, all of which are false for NaN). -/
def readingToOpt : Reading → Option ℚ
  | .num q => some q
  | _ => none

/-- Lines 990-1035 of the loop body: initial READY forcing, the emergency
button, the two-phase alarm-clear handshake (which consumes the whole
tick), and the start/stop button edge detection. -/
def tickButtons (inp : HalIn) (w : World) (now : ℚ) (newId : String) :
    Sum World (World × TickEdges) :=
  let w := if w.loop.lastPollTime = 0 then { w with app := setStatus w.app "READY" now } else w
  let alarmReq : Option String :=
    if inp.btnEmergency then some "EMERGENCY_STOP_BTN" else none
  if w.loop.alarmClearPending then
    if inp.btnEmergency then
      let r := latchAlarm "EMERGENCY_STOP_BTN" now newId w.cmd w.app w.loop
      Sum.inl { w with cmd := r.cmd, app := r.app,
                       loop := { r.loop with alarmClearPending := false } }
    else
      -- release run permission, mark all active alarms cleared (alarm ids
      -- are unique, so the per-id history update marks the same records),
      -- empty the active set, persist, and return to READY
      let hist := w.app.alarmHistory.map fun h =>
        if w.app.activeAlarms.any fun a => a.id == h.id then { h with cleared := true }
        else h
      let app := { w.app with
        activeAlarms := [], alarmHistory := hist,
        persistedAlarms := saveAlarmsToDisk hist, status := "READY" }
      Sum.inl { w with app := app,
                       loop := { w.loop with runningEvent := true,
                                             alarmClearPending := false } }
  else
    let startEvent := inp.btnStart && !w.loop.lastBtnStart
    let stopEvent := inp.btnStop && !w.loop.lastBtnStop
    Sum.inr
      ({ w with loop := { w.loop with lastBtnStart := inp.btnStart,
                                      lastBtnStop := inp.btnStop } },
       ⟨startEvent, stopEvent, alarmReq⟩)

/-- Lines 1036-1071: poll the hardware into the shared state when the poll
interval has elapsed or a start edge arrived. -/
def tickPoll (cfg : Cfg) (inp : HalIn) (w : World) (now : ℚ) (startEvent : Bool) :
    World × Bool :=
  if (cfg.pollInterval ≤ now - w.loop.lastPollTime) || startEvent then
    ({ w with
       app := { w.app with
         temps := inp.temps,
         tempsTimestamp := if inp.lastTempTs ≠ 0 then inp.lastTempTs else now,
         motors := ⟨inp.motorsMain, inp.motorsFeed⟩,
         relays := ⟨inp.fan, inp.pump⟩,
         pwm := inp.pwmOutputs.foldl (fun acc kv => setKeyAdd acc kv.1 kv.2) w.app.pwm },
       loop := { w.loop with lastPollTime := now, tempsLocal := some inp.temps } },
     true)
  else (w, false)

/-- Lines 1073-1079: while STOPPING with both motor mirrors already below
1e-6, skip straight to READY; returns the world and the refreshed local
status. -/
def stoppingShortcut (w : World) (now : ℚ) : World × String :=
  if w.app.status = "STOPPING" ∧ w.loop.runningEvent ∧
     |w.app.motors.main| < 1/1000000 ∧ |w.app.motors.feed| < 1/1000000 then
    let app := setStatus w.app "READY" now
    ({ w with app := app }, app.status)
  else (w, w.app.status)

/-- Lines 1073-1124: the STOPPING shortcut when both motors already read
zero, the periodic safety check, the start button with the optional
cold-extrusion guard, the stop button, the invalid-state fallback, and
latching of any pending alarm request. -/
def tickCommands (cfg : Cfg) (inp : HalIn) (w : World) (now : ℚ) (newId : String)
    (e : TickEdges) (shouldPoll : Bool) : World × Option String :=
  let step1 : World × String := stoppingShortcut w now
  let w := step1.1
  let statusL := step1.2
  let alarmReq :=
    if w.loop.runningEvent ∧ statusL ≠ "ALARM" ∧ shouldPoll then
      let r := safetyCheck cfg.limits inp.motorFault
        w.app.temps.motor w.app.temps.t2 w.app.temps.t3
      if r.1 then e.alarmReq else some (e.alarmReq.getD r.2)
    else e.alarmReq
  let step2 : World × Option String :=
    if w.loop.runningEvent ∧ alarmReq = none ∧ e.startEvent ∧ statusL = "READY" then
      let tempsForStart := w.loop.tempsLocal.getD inp.temps
      let app := { w.app with temps := tempsForStart }
      if cfg.checkTempBeforeStart then
        let g := guardMotorTemp cfg.limits tempsForStart.t2 tempsForStart.t3
        if g.1 then ({ w with app := setStatus app "STARTING" now }, alarmReq)
        else ({ w with app := app }, some g.2)
      else ({ w with app := setStatus app "STARTING" now }, alarmReq)
    else (w, alarmReq)
  let w := step2.1
  let alarmReq := step2.2
  let w :=
    if e.stopEvent ∧ (statusL = "RUNNING" ∨ statusL = "STARTING") then
      { w with app := setStatus w.app "STOPPING" now }
    else if statusL ≠ "READY" ∧ statusL ≠ "STARTING" ∧ statusL ≠ "RUNNING" ∧
            statusL ≠ "STOPPING" ∧ statusL ≠ "ALARM" ∧ statusL ≠ "OFF" then
      { w with app := setStatus w.app "READY" now }
    else w
  match alarmReq with
  | some reason =>
    let r := latchAlarm reason now newId w.cmd w.app w.loop
    ({ w with cmd := r.cmd, app := r.app, loop := r.loop }, some reason)
  | none => (w, none)

/-- Lines 1137-1144: status-transition bookkeeping — on a status change,
clear the fired-action set, re-capture the output snapshot and remember
the status; stamp the sequence clock when entering STARTING, STOPPING or
ALARM with no clock set.  Returns the world and the local
`seq_start_time`. -/
def tickSeqBookkeeping (w : World) (now : ℚ) : World × ℚ :=
  let statusL := w.app.status
  let seqStartL := w.app.seqStartTime
  if w.loop.prevStatus ≠ some statusL then
    let loop := { w.loop with
      seqActionsDone := [],
      seqSnapshotMotors := w.app.motors,
      seqSnapshotRelays := w.app.relays,
      seqSnapshotPwm := w.app.pwm,
      prevStatus := some statusL }
    if (statusL = "STARTING" ∨ statusL = "STOPPING" ∨ statusL = "ALARM") ∧
       seqStartL = 0 then
      ({ w with loop := loop, app := { w.app with seqStartTime := now } }, now)
    else ({ w with loop := loop }, seqStartL)
  else (w, seqStartL)

/-- Lines 1154-1170, ALARM case: ensure the sequence clock, run the
`emergency` phase and blink the status LED; the tick then ends. -/
def tickSeqAlarm (cfg : Cfg) (w : World) (seqStartL now : ℚ) : World :=
  let p : World × ℚ :=
    if seqStartL = 0 then
      ({ w with app := { w.app with seqStartTime := now } }, now)
    else (w, seqStartL)
  let r := processSequencePhase "emergency" cfg.seqEmergency p.2 now
    p.1.loop.seqActionsDone p.1.loop.seqSnapshotMotors p.1.cmd p.1.app
  { p.1 with
    loop := { p.1.loop with seqActionsDone := r.2.1 },
    cmd := { r.2.2.1 with led := decide (⌊now * 10⌋ % 2 = 0) },
    app := r.2.2.2 }

/-- Lines 1172-1201: late sequence-clock initialisation, the startup and
shutdown phase processing with their RUNNING/READY transitions, and the
status LED. -/
def tickSeqPhases (cfg : Cfg) (w : World) (statusL : String)
    (seqStartL now : ℚ) : World :=
  let p3 : World × ℚ :=
    if (statusL = "STARTING" ∨ statusL = "STOPPING") ∧ seqStartL = 0 then
      ({ w with app := { w.app with seqStartTime := now },
                loop := { w.loop with
                  seqSnapshotMotors := w.app.motors,
                  seqSnapshotRelays := w.app.relays,
                  seqSnapshotPwm := w.app.pwm } }, now)
    else (w, seqStartL)
  let w := p3.1
  let seqStartL := p3.2
  let step4 : World × String :=
    if statusL = "STARTING" then
      let r := processSequencePhase "startup" cfg.seqStartup seqStartL now
        w.loop.seqActionsDone w.loop.seqSnapshotMotors w.cmd w.app
      let w2 := { w with loop := { w.loop with seqActionsDone := r.2.1 },
                         cmd := r.2.2.1, app := r.2.2.2 }
      if r.1 then
        ({ w2 with
           app := { w2.app with status := "RUNNING", seqStartTime := 0 },
           loop := { w2.loop with seqActionsDone := [],
                                  prevStatus := some "RUNNING" } }, "RUNNING")
      else (w2, statusL)
    else if statusL = "STOPPING" then
      let r := processSequencePhase "shutdown" cfg.seqShutdown seqStartL now
        w.loop.seqActionsDone w.loop.seqSnapshotMotors w.cmd w.app
      let w2 := { w with loop := { w.loop with seqActionsDone := r.2.1 },
                         cmd := r.2.2.1, app := r.2.2.2 }
      if r.1 then
        ({ w2 with
           app := { w2.app with status := "READY", seqStartTime := 0 },
           loop := { w2.loop with seqActionsDone := [],
                                  prevStatus := some "READY" } }, "READY")
      else (w2, statusL)
    else (w, statusL)
  let led :=
    if step4.2 = "RUNNING" then true
    else if step4.2 = "STARTING" ∨ step4.2 = "STOPPING" then
      decide (⌊now * 2⌋ % 2 = 0)
    else false
  { step4.1 with cmd := { step4.1.cmd with led := led } }

/-- Lines 1126-1201: snapshot re-read, status-transition bookkeeping, the
run-permission fallback, the whole-tick ALARM branch (emergency phase and
status LED blink), the startup/shutdown sequences and the LED.  `Sum.inl`
is a `continue`. -/
def tickSequences (cfg : Cfg) (w : World) (now : ℚ) : Sum World World :=
  let statusL := w.app.status
  let w := { w with loop := { w.loop with tempsLocal := some w.app.temps } }
  let p1 := tickSeqBookkeeping w now
  let p2 : World × String × ℚ :=
    if ¬p1.1.loop.runningEvent ∧ statusL ≠ "ALARM" then
      ({ p1.1 with app := { p1.1.app with status := "ALARM" } }, "ALARM",
       if p1.1.app.seqStartTime ≠ 0 then p1.1.app.seqStartTime else now)
    else (p1.1, statusL, p1.2)
  if p2.2.1 = "ALARM" ∨ ¬p2.1.loop.runningEvent then
    if p2.2.1 = "ALARM" then Sum.inl (tickSeqAlarm cfg p2.1 p2.2.2 now)
    else
      Sum.inl { p2.1 with
        cmd := { p2.1.cmd with led := decide (⌊now * 10⌋ % 2 = 0) } }
  else Sum.inr (tickSeqPhases cfg p2.1 p2.2.1 p2.2.2 now)

/-- Lines 1203-1228: the stale-sensor interlock.  The effective freshness
timeout is `temp_settings["freshness_timeout"]` when configured (it is 1.0
in the shipped defaults) and `4*poll_interval` otherwise.  On stale data
the loop latches `alarm_req or "TEMP_DATA_STALE"` and forces both heaters
off before ending the tick. -/
def tickStale (cfg : Cfg) (inp : HalIn) (w : World) (now : ℚ) (newId : String)
    (alarmReq : Option String) : Sum World World :=
  let ft := cfg.freshnessTimeout.getD (cfg.pollInterval * 4)
  let tempsFresh := w.app.tempsTimestamp ≠ 0 ∧ now - w.app.tempsTimestamp ≤ ft
  let sensorsFresh := inp.sensorTsT2 ≠ 0 ∧ now - inp.sensorTsT2 ≤ ft ∧
    inp.sensorTsT3 ≠ 0 ∧ now - inp.sensorTsT3 ≤ ft
  if ¬tempsFresh ∨ ¬sensorsFresh then
    let r := latchAlarm (alarmReq.getD "TEMP_DATA_STALE") now newId w.cmd w.app w.loop
    Sum.inl { w with
      cmd := { r.cmd with heaterZ1 := 0, heaterZ2 := 0 },
      app := { r.app with heaterDutyZ1 := 0, heaterDutyZ2 := 0 },
      loop := r.loop }
  else Sum.inr w

/-- Lines 1230-1304: AUTO-mode control output (active Auto-Tuner, else the
two PID loops) or MANUAL-mode duty passthrough. -/
def tickControlOutput (w : World) (now : ℚ) : World :=
  if w.app.mode = "AUTO" then
    let t2 := w.app.temps.t2
    let t3 := w.app.temps.t3
    if w.tuner.active then
      let tuneInput := if w.tuner.zoneName = some "z1" then t2 else t3
      let r := AutoTuner.update w.tuner (readingToOpt tuneInput) now
      let w := { w with tuner := r.1 }
      let w :=
        match r.2 with
        | some v =>
          let w :=
            if w.tuner.zoneName = some "z1" then
              { w with cmd := { w.cmd with heaterZ1 := v },
                       app := { w.app with heaterDutyZ1 := v },
                       pidZ1 := PID.reset w.pidZ1 now }
            else if w.tuner.zoneName = some "z2" then
              { w with cmd := { w.cmd with heaterZ2 := v },
                       app := { w.app with heaterDutyZ2 := v },
                       pidZ2 := PID.reset w.pidZ2 now }
            else w
          { w with app := { w.app with autotuneStatus := w.tuner.state,
                                       autotuneCycle := w.tuner.cycleCount } }
        | none => w
      if (w.tuner.state = "DONE" ∨ w.tuner.state = "FAILED") ∧ w.tuner.active = false then
        if w.tuner.state = "DONE" then
          -- the HTTP layer derives the suggested gains from these detected
          -- parameters (get_pid_suggestions); the loop stores the result
          { w with app := { w.app with autotuneStatus := w.tuner.state,
                                       autotuneResult := w.tuner.detectedParams } }
        else { w with app := { w.app with autotuneStatus := w.tuner.state } }
      else w
    else
      let p1 := { w.pidZ1 with setpoint := w.app.targetZ1 }
      let p2 := { w.pidZ2 with setpoint := w.app.targetZ2 }
      let s1 : PidState × HalCmd × AppState :=
        if t2 = .missing then
          (PID.reset p1 now, { w.cmd with heaterZ1 := 0 },
           { w.app with heaterDutyZ1 := 0 })
        else
          let r := PID.compute p1 t2 now
          match r.2 with
          | some out =>
            (r.1, { w.cmd with heaterZ1 := out }, { w.app with heaterDutyZ1 := out })
          | none => (r.1, w.cmd, w.app)
      let w := { w with pidZ1 := s1.1, cmd := s1.2.1, app := s1.2.2 }
      let s2 : PidState × HalCmd × AppState :=
        if t3 = .missing then
          (PID.reset p2 now, { w.cmd with heaterZ2 := 0 },
           { w.app with heaterDutyZ2 := 0 })
        else
          let r := PID.compute p2 t3 now
          match r.2 with
          | some out =>
            (r.1, { w.cmd with heaterZ2 := out }, { w.app with heaterDutyZ2 := out })
          | none => (r.1, w.cmd, w.app)
      { w with pidZ2 := s2.1, cmd := s2.2.1, app := s2.2.2 }
  else if w.app.mode = "MANUAL" then
    { w with
      cmd := { w.cmd with heaterZ1 := w.app.manualDutyZ1,
                          heaterZ2 := w.app.manualDutyZ2 },
      app := { w.app with heaterDutyZ1 := w.app.manualDutyZ1,
                          heaterDutyZ2 := w.app.manualDutyZ2 } }
  else w

/-- One full iteration of the `control_loop` body (given a live hardware
interface), from the button reads down to the mode-specific control
output.  `newId` is the uuid for any alarm record created this tick. -/
def controlTick (cfg : Cfg) (inp : HalIn) (w : World) (now : ℚ) (newId : String) :
    World :=
  match tickButtons inp w now newId with
  | .inl w2 => w2
  | .inr (w2, e) =>
    let pb := tickPoll cfg inp w2 now e.startEvent
    let cb := tickCommands cfg inp pb.1 now newId e pb.2
    match tickSequences cfg cb.1 now with
    | .inl w5 => w5
    | .inr w5 =>
      match tickStale cfg inp w5 now newId cb.2 with
      | .inl w6 => w6
      | .inr w6 => tickControlOutput w6 now

/- ------------------------------------------------------------------
SET_MOTOR command handler (backend/app.py, control endpoint)
------------------------------------------------------------------ -/

/-- Model of `_temps_fresh(now)`: the data is fresh when the shared timestamp is
positive and at most `max(1.0, 4*poll_interval)` old. -/
def tempsFreshAt (pollInterval ts now : ℚ) : Bool × Option String :=
  if ts ≤ 0 ∨ max 1 (pollInterval * 4) < now - ts then
    (false, some "TEMP_DATA_STALE")
  else (true, none)

/-- The motor write at the end of the SET_MOTOR branch
(`hal.set_motor_rpm(motor, rpm)` plus the state mirror).  Upstream payload
validation restricts `motor` to `"main"`/`"feed"`. -/
def applySetMotor (motor : String) (rpm : ℚ) (cmd : HalCmd) (app : AppState) :
    HalCmd × AppState :=
  if motor = "main" then
    ({ cmd with motorMain := rpm }, { app with motors := { app.motors with main := rpm } })
  else
    ({ cmd with motorFeed := rpm }, { app with motors := { app.motors with feed := rpm } })

/-- Outcome of one SET_MOTOR command: the HTTP-level verdict, the updated
actuator commands and shared state, and the refreshed debounce stamp
(`none` when the command never passed the debounce/alarm gate). -/
structure SetMotorOut where
  success : Bool
  msg : String
  cmd : HalCmd
  app : AppState
  loop : LoopLocals
  toggleTime : Option ℚ
deriving Repr

/-- The SET_MOTOR branch of the `control` endpoint, after payload
validation: alarm gating (SET_MOTOR is warning-allowed, so only a critical
active alarm blocks it), per-motor debounce, freshness check, the
cold-extrusion guard in AUTO mode only, and on a guard denial both motors
are forced to zero and the reason is latched as an alarm.  On success the
endpoint returns `{"success": True}` with no message (msg `""` here). -/
def handleSetMotor (pollInterval : ℚ) (L : SafetyLimits) (motor : String)
    (rpm : ℚ) (requestTime lastToggle : ℚ) (newId : String)
    (cmd : HalCmd) (app : AppState) (loop : LoopLocals) : SetMotorOut :=
  if app.status = "ALARM" ∧ (app.activeAlarms.any fun a => a.severity == "CRITICAL") then
    ⟨false, "ALARM_ACTIVE", cmd, app, loop, none⟩
  else if requestTime - lastToggle < 1/4 then
    ⟨false, "MOTOR_DEBOUNCE", cmd, app, loop, none⟩
  else
    let ts := app.tempsTimestamp
    if rpm ≠ 0 then
      if (tempsFreshAt pollInterval ts requestTime).1 = false then
        ⟨false, "TEMP_DATA_STALE", cmd, app, loop, some requestTime⟩
      else
        let isManual := app.mode = "MANUAL"
        let g :=
          if ¬isManual then
            if 0 < requestTime - ts then guardMotorTemp L app.temps.t2 app.temps.t3
            else (false, "TEMP_DATA_STALE")
          else (true, "OK")
        if g.1 = false then
          let cmd2 := { cmd with motorMain := 0, motorFeed := 0 }
          let r := latchAlarm g.2 requestTime newId cmd2 app loop
          ⟨false, g.2, r.cmd, { r.app with motors := ⟨0, 0⟩ }, r.loop,
           some requestTime⟩
        else
          let (cmd2, app2) := applySetMotor motor rpm cmd app
          ⟨true, "", cmd2, app2, loop, some requestTime⟩
    else
      let (cmd2, app2) := applySetMotor motor rpm cmd app
      ⟨true, "", cmd2, app2, loop, some requestTime⟩

/- ------------------------------------------------------------------
Theorems: AutoTuner (claims C8, C10)
------------------------------------------------------------------ -/

/-- The perfect square-wave peak train of Scenario C:
`[110@10, 90@15, 110@20, 90@25, 110@30]`. -/
def scenarioPeaks : List Peak :=
  [⟨10, 110, "max"⟩, ⟨15, 90, "min"⟩, ⟨20, 110, "max"⟩, ⟨25, 90, "min"⟩,
   ⟨30, 110, "max"⟩]

/-- Configuration for the Scenario D witness and the ALARM-state
counterexample: the shipped defaults (poll 0.25 s, freshness timeout 1 s,
temperature gate enabled, no sequences configured). -/
def wdCfg : Cfg := ⟨1/4, some 1, true, [], [], [], defaultLimits⟩

/-- Hardware inputs for a stale-data tick: healthy temperatures but all
timestamps stuck at t = 1. -/
def wdInp : HalIn :=
  ⟨false, false, false, ⟨.num 200, .num 200, .num 30⟩, 1, 1, 1, false, 0, 0,
   false, false, []⟩

/-- Shared state of a RUNNING/AUTO system whose temperature snapshot is
stuck at t = 1, with nonzero heater duties commanded. -/
def wdApp : AppState :=
  { status := "RUNNING", mode := "AUTO", targetZ1 := 200, targetZ2 := 200,
    temps := ⟨.num 200, .num 200, .num 30⟩, tempsTimestamp := 1,
    motors := ⟨0, 0⟩, relays := ⟨false, false⟩, pwm := [],
    peltierDuty := 0, heaterDutyZ1 := 42, heaterDutyZ2 := 37,
    manualDutyZ1 := 0, manualDutyZ2 := 0,
    activeAlarms := [], alarmHistory := [], persistedAlarms := [],
    seqStartTime := 0, autotuneStatus := "IDLE", autotuneCycle := 0,
    autotuneResult := none }

/-- Loop locals matching `wdApp`: running, no pending clear, steady
RUNNING status. -/
def wdLoop : LoopLocals :=
  ⟨99, some "RUNNING", [], ⟨0, 0⟩, ⟨false, false⟩, [], none, false, false,
   false, true⟩

/-- Commanded outputs matching `wdApp`. -/
def wdCmd : HalCmd := ⟨42, 37, 0, 0, false, false, 0, [], [], false⟩

/-- The Scenario D world. -/
def wdWorld : World :=
  ⟨wdApp, wdLoop, wdCmd, PID.init 2 1 0 200 (1/10) 0 100 0,
   PID.init 2 1 0 200 (1/10) 0 100 0, AutoTuner.init 0 100⟩

/-- The pre-existing critical alarm of the counterexample world. -/
def cexAlarm : AlarmRecord :=
  ⟨"e1", "EMERGENCY_STOP_BTN", "CRITICAL", "EMERGENCY_STOP_BTN", 1, false, false⟩

/-- Counterexample configuration: the shipped defaults, no sequences. -/
def cexCfg : Cfg := ⟨1/4, some 1, true, [], [], [], defaultLimits⟩

/-- Counterexample hardware inputs: quiet buttons, stale timestamps. -/
def cexInp : HalIn :=
  ⟨false, false, false, ⟨.num 200, .num 200, .num 30⟩, 1, 1, 1, false, 0, 0,
   false, false, []⟩

/-- Counterexample shared state: an ALARM system (one active emergency
record) whose temperature snapshot is stuck at t = 1. -/
def cexApp : AppState :=
  { status := "ALARM", mode := "AUTO", targetZ1 := 200, targetZ2 := 200,
    temps := ⟨.num 200, .num 200, .num 30⟩, tempsTimestamp := 1,
    motors := ⟨0, 0⟩, relays := ⟨false, false⟩, pwm := [],
    peltierDuty := 0, heaterDutyZ1 := 55, heaterDutyZ2 := 44,
    manualDutyZ1 := 0, manualDutyZ2 := 0,
    activeAlarms := [cexAlarm], alarmHistory := [cexAlarm],
    persistedAlarms := [cexAlarm],
    seqStartTime := 3, autotuneStatus := "IDLE", autotuneCycle := 0,
    autotuneResult := none }

/-- Counterexample loop locals: run permission revoked, ALARM already the
previous status, emergency sequence actions already fired, poll clock
caught up to now. -/
def cexLoop : LoopLocals :=
  ⟨100, some "ALARM",
   ["emergency:feed_motor", "emergency:main_motor", "emergency:fan",
    "emergency:pump"],
   ⟨0, 0⟩, ⟨false, false⟩, [], none, false, false, false, false⟩

/-- Counterexample commanded outputs: nonzero heater commands left over. -/
def cexCmd : HalCmd := ⟨55, 44, 0, 0, false, false, 0, [], [], false⟩

/-- The counterexample world. -/
def cexWorld : World :=
  ⟨cexApp, cexLoop, cexCmd, PID.init 2 1 0 200 (1/10) 0 100 0,
   PID.init 2 1 0 200 (1/10) 0 100 0, AutoTuner.init 0 100⟩

/-- Evaluation of `compute` on an accepted numeric sample. -/
theorem PID.compute_num (s : PidState) (x now : ℚ)
    (h2 : ¬(now - s.lastTime < s.sampleTime)) :
    PID.compute s (.num x) now =
      ({ s with
         integral :=
           if pidCommit s x now then
             max (min (pidProposed s x now) s.maxOut) s.minOut
           else s.integral,
         lastInput := some x,
         lastTime := now },
       some (pidOutput s x now)) := by
  unfold PID.compute
  rw [if_neg h2]

/- ------------------------------------------------------------------
Theorems: Safety Monitor (claims C4, C5)
------------------------------------------------------------------ -/

/-- C4: `SafetyMonitor.check` evaluates its conditions in a fixed priority
order — driver fault, then motor sensor missing, then motor sensor invalid,
then motor over-temperature, then heater sensor missing/invalid, then
heater over-temperature — and the first violated condition determines the
reported reason; with nothing violated it returns `(true, "OK")`. -/
theorem safety_check_priority (L : SafetyLimits) (fault : Bool) (m t2 t3 : Reading) :
    (fault = true →
      safetyCheck L fault m t2 t3 = (false, "DM556 DRIVER FAULT (Check Blinks)")) ∧
    (fault = false → m = .missing →
      safetyCheck L fault m t2 t3 = (false, "MOTOR_TEMP_SENSOR_FAILURE")) ∧
    (fault = false → m ≠ .missing → safeTemp m = none →
      safetyCheck L fault m t2 t3 = (false, "MOTOR_SENSOR_FAILURE")) ∧
    (∀ mv, fault = false → safeTemp m = some mv → mv.pyGtQ L.tempMotorMax = true →
      safetyCheck L fault m t2 t3 = (false, "MOTOR OVERHEAT")) ∧
    (∀ mv, fault = false → safeTemp m = some mv → mv.pyGtQ L.tempMotorMax = false →
      (safeTemp t2 = none ∨ safeTemp t3 = none) →
      safetyCheck L fault m t2 t3 = (false, "HEATER_SENSOR_FAILURE")) ∧
    (∀ mv a b, fault = false → safeTemp m = some mv → mv.pyGtQ L.tempMotorMax = false →
      safeTemp t2 = some a → safeTemp t3 = some b →
      (a.pyGtQ L.tempHeatersMax || b.pyGtQ L.tempHeatersMax) = true →
      safetyCheck L fault m t2 t3 = (false, "HEATER THERMAL RUNAWAY")) ∧
    (∀ mv a b, fault = false → safeTemp m = some mv → mv.pyGtQ L.tempMotorMax = false →
      safeTemp t2 = some a → safeTemp t3 = some b →
      (a.pyGtQ L.tempHeatersMax || b.pyGtQ L.tempHeatersMax) = false →
      safetyCheck L fault m t2 t3 = (true, "OK")) := by
  have hm : ∀ mv : Reading, safeTemp m = some mv → m ≠ .missing := by
    intro mv h; cases m <;> simp [safeTemp] at h ⊢
  refine ⟨?_, ?_, ?_, ?_, ?_, ?_, ?_⟩
  · intro h; subst h; simp [safetyCheck]
  · intro h hmiss; subst h hmiss; simp [safetyCheck]
  · intro h hne hnone; subst h; simp [safetyCheck, hne, hnone]
  · intro mv h hsome hgt; subst h
    simp [safetyCheck, hm mv hsome, hsome, hgt]
  · intro mv h hsome hgt hnone; subst h
    rcases hnone with h2 | h3
    · cases ht3 : safeTemp t3 <;>
        simp [safetyCheck, hm mv hsome, hsome, hgt, h2, ht3]
    · cases ht2 : safeTemp t2 <;>
        simp [safetyCheck, hm mv hsome, hsome, hgt, h3, ht2]
  · intro mv a b h hsome hgt h2 h3 hor; subst h
    simp [safetyCheck, hm mv hsome, hsome, hgt, h2, h3, hor]
  · intro mv a b h hsome hgt h2 h3 hor; subst h
    simp [safetyCheck, hm mv hsome, hsome, hgt, h2, h3, hor]

/-- Witness for C4: motor driver fault and heater over-temperature at the
same time report the motor-fault reason. -/
theorem safety_check_priority_witness :
    safetyCheck defaultLimits true (.num 25) (.num 300) (.num 300) =
      (false, "DM556 DRIVER FAULT (Check Blinks)") :=
  (safety_check_priority defaultLimits true (.num 25) (.num 300) (.num 300)).1 rfl

/-- Counterexample to C5 as stated: an infinite heater reading is NOT
reported as a heater-sensor failure; `_safe_temp` only filters NaN and
non-numeric values, so `inf` flows into the over-temperature comparison and
yields the HEATER THERMAL RUNAWAY reason even though it is non-finite. -/
theorem heater_nonfinite_reason_cex :
    safetyCheck defaultLimits false (.num 25) .inf (.num 200) =
      (false, "HEATER THERMAL RUNAWAY") ∧
    Reading.isFiniteB .inf = false ∧
    Reading.pyGtQ .inf defaultLimits.tempHeatersMax = true ∧
    ("HEATER THERMAL RUNAWAY" : String) ≠ "HEATER_SENSOR_FAILURE" := by
  refine ⟨rfl, rfl, rfl, by decide⟩

/-- C5 amended: when either heater-zone reading is missing, NaN or
non-numeric (so `_safe_temp` yields `None`), the check denies with
HEATER_SENSOR_FAILURE rather than the over-temperature reason; an infinite
reading instead passes the sensor-validity filter and is denied as HEATER
THERMAL RUNAWAY. -/
theorem heater_sensor_reason_amended (L : SafetyLimits) (m t2 t3 : Reading)
    (mv : Reading) (hsome : safeTemp m = some mv)
    (hgt : mv.pyGtQ L.tempMotorMax = false) :
    (safeTemp t2 = none ∨ safeTemp t3 = none →
      safetyCheck L false m t2 t3 = (false, "HEATER_SENSOR_FAILURE")) ∧
    (t2 = .inf → ∀ b, safeTemp t3 = some b →
      safetyCheck L false m t2 t3 = (false, "HEATER THERMAL RUNAWAY")) ∧
    (t3 = .inf → ∀ a, safeTemp t2 = some a →
      safetyCheck L false m t2 t3 = (false, "HEATER THERMAL RUNAWAY")) := by
  have hm : m ≠ .missing := by
    intro h; subst h; simp [safeTemp] at hsome
  refine ⟨?_, ?_, ?_⟩
  · intro hnone
    rcases hnone with h2 | h3
    · cases ht3 : safeTemp t3 <;>
        simp [safetyCheck, hm, hsome, hgt, h2, ht3]
    · cases ht2 : safeTemp t2 <;>
        simp [safetyCheck, hm, hsome, hgt, h3, ht2]
  · intro h2 b h3; subst h2
    simp only [safetyCheck, hm, hsome, hgt, h3, if_false, if_neg,
      Bool.false_eq_true, not_false_eq_true]
    simp [safeTemp, Reading.pyGtQ, Reading.pyLt]
  · intro h3 a h2; subst h3
    simp only [safetyCheck, hm, hsome, hgt, h2, if_false, if_neg,
      Bool.false_eq_true, not_false_eq_true]
    simp [safeTemp, Reading.pyGtQ, Reading.pyLt]

/-- Witness for the amended C5: a NaN heater reading yields the
heater-sensor-failure reason. -/
theorem heater_sensor_reason_amended_witness :
    safetyCheck defaultLimits false (.num 25) .nan (.num 200) =
      (false, "HEATER_SENSOR_FAILURE") :=
  (heater_sensor_reason_amended defaultLimits (.num 25) .nan (.num 200)
    (.num 25) rfl rfl).1 (Or.inl rfl)

/- ------------------------------------------------------------------
Theorems: PID controller (claims C2, C3)
------------------------------------------------------------------ -/

/-- C3: the `compute` contract — rate limiting returns no output and leaves
the state untouched; a missing or non-finite measurement returns no output,
refreshes only the sample clock (integrator unchanged, hence still finite);
an accepted measurement produces the clamped PID formula with
derivative-on-measurement (zero on the first sample); and every returned
output lies within the output limits. -/
theorem pid_compute_contract (s : PidState) (inputVal : Reading) (now : ℚ) :
    (now - s.lastTime < s.sampleTime → PID.compute s inputVal now = (s, none)) ∧
    (s.sampleTime ≤ now - s.lastTime → inputVal.isFiniteB = false →
      PID.compute s inputVal now = ({ s with lastTime := now }, none)) ∧
    (∀ x, s.sampleTime ≤ now - s.lastTime → inputVal = .num x →
      (PID.compute s inputVal now).2 =
        some (max (min (s.kp * (s.setpoint - x) +
            s.ki * (s.integral + (s.setpoint - x) * (now - s.lastTime)) -
            s.kd * (match s.lastInput with
                    | none => 0
                    | some li => (x - li) / (now - s.lastTime))) s.maxOut)
          s.minOut)) ∧
    (s.minOut ≤ s.maxOut → ∀ out, (PID.compute s inputVal now).2 = some out →
      s.minOut ≤ out ∧ out ≤ s.maxOut) := by
  refine ⟨?_, ?_, ?_, ?_⟩
  · intro h; simp [PID.compute, h]
  · intro h hfin
    have h2 : ¬(now - s.lastTime < s.sampleTime) := not_lt.mpr h
    cases inputVal <;> simp_all [PID.compute, Reading.isFiniteB]
  · intro x h hx; subst hx
    have h2 : ¬(now - s.lastTime < s.sampleTime) := not_lt.mpr h
    rw [PID.compute_num s x now h2]
    rfl
  · intro hmm out hout
    by_cases h : now - s.lastTime < s.sampleTime
    · simp [PID.compute, h] at hout
    · cases inputVal <;> simp [PID.compute, h] at hout
      subst hout
      constructor
      · exact le_max_right _ _
      · exact max_le (le_trans (min_le_right _ _) le_rfl) hmm

/-- Witness for C3: a NaN measurement is skipped with only the sample clock
refreshed, and an accepted measurement is clamped into the limits. -/
theorem pid_compute_contract_witness :
    PID.compute (PID.init 2 1 0 200 (1/10) 0 100 0) .nan 1 =
      ({ PID.init 2 1 0 200 (1/10) 0 100 0 with lastTime := 1 }, none) ∧
    (∀ out, (PID.compute (PID.init 2 1 0 200 (1/10) 0 100 0) (.num 50) 1).2 =
        some out → 0 ≤ out ∧ out ≤ 100) := by
  constructor
  · exact (pid_compute_contract (PID.init 2 1 0 200 (1/10) 0 100 0) .nan 1).2.1
      (by norm_num [PID.init]) rfl
  · exact (pid_compute_contract (PID.init 2 1 0 200 (1/10) 0 100 0) (.num 50) 1).2.2.2
      (by norm_num [PID.init])

/-- C2: the tentative integral is committed (after clamping into the output
limits) exactly when the output is not pinned at the maximum with positive
error and not pinned at the minimum with negative error; and the stored
integrator stays within the output limits after construction, after every
reset and after every compute call, so saturation never grows it beyond the
output bound. -/
theorem pid_antiwindup_invariant (s : PidState) (inputVal : Reading) (now tr : ℚ)
    (hmin : s.minOut ≤ 0) (hmax : 0 ≤ s.maxOut) :
    (∀ x, s.sampleTime ≤ now - s.lastTime → inputVal = .num x →
      (pidCommit s x now →
        (PID.compute s inputVal now).1.integral =
          max (min (pidProposed s x now) s.maxOut) s.minOut) ∧
      (((pidAtUpper s x now ∧ 0 < pidError s x) ∨
        (pidAtLower s x now ∧ pidError s x < 0)) →
        (PID.compute s inputVal now).1.integral = s.integral)) ∧
    (s.minOut ≤ s.integral → s.integral ≤ s.maxOut →
      s.minOut ≤ (PID.compute s inputVal now).1.integral ∧
      (PID.compute s inputVal now).1.integral ≤ s.maxOut) ∧
    (s.minOut ≤ (PID.reset s tr).integral ∧ (PID.reset s tr).integral ≤ s.maxOut) ∧
    (∀ kp ki kd sp st n0,
      s.minOut ≤ (PID.init kp ki kd sp st s.minOut s.maxOut n0).integral ∧
      (PID.init kp ki kd sp st s.minOut s.maxOut n0).integral ≤ s.maxOut) := by
  have hmM : s.minOut ≤ s.maxOut := le_trans hmin hmax
  refine ⟨?_, ?_, ?_, ?_⟩
  · intro x h hx; subst hx
    have h2 : ¬(now - s.lastTime < s.sampleTime) := not_lt.mpr h
    rw [PID.compute_num s x now h2]
    constructor
    · intro hcommit
      simp [if_pos hcommit]
    · intro hskip
      have hnc : ¬pidCommit s x now := by
        intro hc
        rcases hskip with h1 | h1
        · exact hc.1 h1
        · exact hc.2 h1
      simp [if_neg hnc]
  · intro hlo hhi
    by_cases h : now - s.lastTime < s.sampleTime
    · simp [PID.compute, h]; exact ⟨hlo, hhi⟩
    · cases inputVal <;> simp only [PID.compute, h, if_neg, if_false]
      case neg.num x =>
        by_cases hc : pidCommit s x now
        · simp only [if_pos hc]
          exact ⟨le_max_right _ _,
            max_le (le_trans (min_le_right _ _) le_rfl) hmM⟩
        · simp only [if_neg hc]
          exact ⟨hlo, hhi⟩
      all_goals exact ⟨hlo, hhi⟩
  · exact ⟨by simp [PID.reset, hmin], by simp [PID.reset, hmax]⟩
  · intro kp ki kd sp st n0
    exact ⟨by simp [PID.init, hmin], by simp [PID.init, hmax]⟩

/-- Witness for C2: a concrete saturated compute call keeps the integrator
inside the output limits. -/
theorem pid_antiwindup_invariant_witness :
    0 ≤ (PID.compute (PID.init 2 1 0 200 (1/10) 0 100 0) (.num 50) 1).1.integral ∧
    (PID.compute (PID.init 2 1 0 200 (1/10) 0 100 0) (.num 50) 1).1.integral ≤ 100 := by
  have h := (pid_antiwindup_invariant (PID.init 2 1 0 200 (1/10) 0 100 0)
      (.num 50) 1 5 (by norm_num [PID.init]) (by norm_num [PID.init])).2.1
    (by norm_num [PID.init]) (by norm_num [PID.init])
  simpa [PID.init] using h

/- ------------------------------------------------------------------
Theorems: alarm latch and history cap (claims C7, C9)
------------------------------------------------------------------ -/

/-- Helper: folding zero-writes over the pwm channels leaves every pair
either untouched with a key outside the channel list, or zeroed. -/
theorem mem_foldl_setKey_zero (names : List String) (l : List (String × ℚ))
    (kv : String × ℚ)
    (h : kv ∈ names.foldl (fun acc n => setKey acc n 0) l) :
    (kv ∈ l ∧ kv.1 ∉ names) ∨ kv.2 = 0 := by
  induction names generalizing l with
  | nil => exact Or.inl ⟨h, by simp⟩
  | cons n ns ih =>
    rcases ih (setKey l n 0) h with ⟨hmem, hnot⟩ | hzero
    · rcases List.mem_map.mp hmem with ⟨e, he, heq⟩
      by_cases hk : e.1 = n
      · right
        rw [if_pos hk] at heq
        rw [← heq]
      · left
        rw [if_neg hk] at heq
        subst heq
        exact ⟨he, by simp [hk, List.mem_cons]; exact fun hc => absurd hc hnot⟩
    · exact Or.inr hzero

/-- C7: after `_latch_alarm(reason)` the status is ALARM, every heater,
motor, relay, peltier and pwm output has been commanded off, the state
mirrors read zero/off, and the active set gains exactly one new record
unless an uncleared record with the same reason is already active. -/
theorem alarm_latch_forces_outputs (reason : String) (now : ℚ) (newId : String)
    (cmd : HalCmd) (app : AppState) (loop : LoopLocals) :
    (latchAlarm reason now newId cmd app loop).app.status = "ALARM" ∧
    (latchAlarm reason now newId cmd app loop).cmd.heaterZ1 = 0 ∧
    (latchAlarm reason now newId cmd app loop).cmd.heaterZ2 = 0 ∧
    (latchAlarm reason now newId cmd app loop).cmd.motorMain = 0 ∧
    (latchAlarm reason now newId cmd app loop).cmd.motorFeed = 0 ∧
    (latchAlarm reason now newId cmd app loop).cmd.fan = false ∧
    (latchAlarm reason now newId cmd app loop).cmd.pump = false ∧
    (latchAlarm reason now newId cmd app loop).cmd.peltier = 0 ∧
    (∀ kv ∈ (latchAlarm reason now newId cmd app loop).cmd.pwm,
      kv.1 ∈ cmd.pwmChannels → kv.2 = 0) ∧
    (latchAlarm reason now newId cmd app loop).app.motors = ⟨0, 0⟩ ∧
    (latchAlarm reason now newId cmd app loop).app.relays = ⟨false, false⟩ ∧
    (latchAlarm reason now newId cmd app loop).app.peltierDuty = 0 ∧
    (∀ kv ∈ (latchAlarm reason now newId cmd app loop).app.pwm, kv.2 = 0) ∧
    ((app.activeAlarms.any fun a => a.rtype == reason && !a.cleared) = true →
      (latchAlarm reason now newId cmd app loop).app.activeAlarms =
        app.activeAlarms) ∧
    ((app.activeAlarms.any fun a => a.rtype == reason && !a.cleared) = false →
      (latchAlarm reason now newId cmd app loop).app.activeAlarms =
        app.activeAlarms ++ [createAlarmObject newId reason (severityOf reason) now]) := by
  refine ⟨?_, ?_, ?_, ?_, ?_, ?_, ?_, ?_, ?_, ?_, ?_, ?_, ?_, ?_, ?_⟩ <;>
    simp only [latchAlarm, allOutputsOff] <;>
    try (first | rfl | (split <;> rfl))
  · intro kv hmem hch
    rcases mem_foldl_setKey_zero _ _ _ hmem with ⟨_, hno⟩ | hz
    · exact absurd hch hno
    · exact hz
  · by_cases hdup : (app.activeAlarms.any fun a => a.rtype == reason && !a.cleared) = true <;>
      simp only [hdup, if_true, if_false, ite_true, ite_false, Bool.false_eq_true] <;>
      (intro kv hmem
       rcases List.mem_map.mp hmem with ⟨e, _, heq⟩
       rw [← heq])
  · intro hdup
    simp [hdup]
  · intro hdup
    simp [hdup]

/-- Witness for C7: a duplicate uncleared active record suppresses the
append while still forcing ALARM. -/
theorem alarm_latch_forces_outputs_witness :
    (latchAlarm "MOTOR OVERHEAT" 7 "id2"
      ⟨50, 60, 100, 20, true, true, 80, [("aux", 30)], ["aux"], true⟩
      { status := "RUNNING", mode := "AUTO", targetZ1 := 200, targetZ2 := 200,
        temps := ⟨.num 200, .num 200, .num 30⟩, tempsTimestamp := 6,
        motors := ⟨100, 20⟩, relays := ⟨true, true⟩, pwm := [("aux", 30)],
        peltierDuty := 80, heaterDutyZ1 := 50, heaterDutyZ2 := 60,
        manualDutyZ1 := 0, manualDutyZ2 := 0,
        activeAlarms := [⟨"id1", "MOTOR OVERHEAT", "WARNING", "MOTOR OVERHEAT", 5, false, false⟩],
        alarmHistory := [⟨"id1", "MOTOR OVERHEAT", "WARNING", "MOTOR OVERHEAT", 5, false, false⟩],
        persistedAlarms := [⟨"id1", "MOTOR OVERHEAT", "WARNING", "MOTOR OVERHEAT", 5, false, false⟩],
        seqStartTime := 0, autotuneStatus := "IDLE", autotuneCycle := 0,
        autotuneResult := none }
      ⟨5, some "RUNNING", [], ⟨100, 20⟩, ⟨true, true⟩, [], none, false, false, false, true⟩).app.status
      = "ALARM" ∧
    (latchAlarm "MOTOR OVERHEAT" 7 "id2"
      ⟨50, 60, 100, 20, true, true, 80, [("aux", 30)], ["aux"], true⟩
      { status := "RUNNING", mode := "AUTO", targetZ1 := 200, targetZ2 := 200,
        temps := ⟨.num 200, .num 200, .num 30⟩, tempsTimestamp := 6,
        motors := ⟨100, 20⟩, relays := ⟨true, true⟩, pwm := [("aux", 30)],
        peltierDuty := 80, heaterDutyZ1 := 50, heaterDutyZ2 := 60,
        manualDutyZ1 := 0, manualDutyZ2 := 0,
        activeAlarms := [⟨"id1", "MOTOR OVERHEAT", "WARNING", "MOTOR OVERHEAT", 5, false, false⟩],
        alarmHistory := [⟨"id1", "MOTOR OVERHEAT", "WARNING", "MOTOR OVERHEAT", 5, false, false⟩],
        persistedAlarms := [⟨"id1", "MOTOR OVERHEAT", "WARNING", "MOTOR OVERHEAT", 5, false, false⟩],
        seqStartTime := 0, autotuneStatus := "IDLE", autotuneCycle := 0,
        autotuneResult := none }
      ⟨5, some "RUNNING", [], ⟨100, 20⟩, ⟨true, true⟩, [], none, false, false, false, true⟩).app.activeAlarms
      = [⟨"id1", "MOTOR OVERHEAT", "WARNING", "MOTOR OVERHEAT", 5, false, false⟩] := by
  have h := alarm_latch_forces_outputs "MOTOR OVERHEAT" 7 "id2"
      ⟨50, 60, 100, 20, true, true, 80, [("aux", 30)], ["aux"], true⟩
      { status := "RUNNING", mode := "AUTO", targetZ1 := 200, targetZ2 := 200,
        temps := ⟨.num 200, .num 200, .num 30⟩, tempsTimestamp := 6,
        motors := ⟨100, 20⟩, relays := ⟨true, true⟩, pwm := [("aux", 30)],
        peltierDuty := 80, heaterDutyZ1 := 50, heaterDutyZ2 := 60,
        manualDutyZ1 := 0, manualDutyZ2 := 0,
        activeAlarms := [⟨"id1", "MOTOR OVERHEAT", "WARNING", "MOTOR OVERHEAT", 5, false, false⟩],
        alarmHistory := [⟨"id1", "MOTOR OVERHEAT", "WARNING", "MOTOR OVERHEAT", 5, false, false⟩],
        persistedAlarms := [⟨"id1", "MOTOR OVERHEAT", "WARNING", "MOTOR OVERHEAT", 5, false, false⟩],
        seqStartTime := 0, autotuneStatus := "IDLE", autotuneCycle := 0,
        autotuneResult := none }
      ⟨5, some "RUNNING", [], ⟨100, 20⟩, ⟨true, true⟩, [], none, false, false, false, true⟩
  exact ⟨h.1, h.2.2.2.2.2.2.2.2.2.2.2.2.2.1 (by decide)⟩

set_option maxRecDepth 8192 in
/-- Counterexample to C9 as stated: `_latch_alarm` appends to the
in-memory `state["alarm_history"]` without truncating it, so the history
kept in memory grows to 1001 records; only the persisted copy is capped. -/
theorem alarm_history_cap_cex :
    (latchAlarm "TEMP_DATA_STALE" 5 "idn"
        ⟨0, 0, 0, 0, false, false, 0, [], [], false⟩ fullHistApp
        ⟨4, some "RUNNING", [], ⟨0, 0⟩, ⟨false, false⟩, [], none, false, false,
         false, true⟩).app.alarmHistory.length = 1001 ∧
    1000 <
      (latchAlarm "TEMP_DATA_STALE" 5 "idn"
        ⟨0, 0, 0, 0, false, false, 0, [], [], false⟩ fullHistApp
        ⟨4, some "RUNNING", [], ⟨0, 0⟩, ⟨false, false⟩, [], none, false, false,
         false, true⟩).app.alarmHistory.length := by
  have h : (latchAlarm "TEMP_DATA_STALE" 5 "idn"
      ⟨0, 0, 0, 0, false, false, 0, [], [], false⟩ fullHistApp
      ⟨4, some "RUNNING", [], ⟨0, 0⟩, ⟨false, false⟩, [], none, false, false,
       false, true⟩).app.alarmHistory =
      List.replicate 1000 histRecord ++
        [createAlarmObject "idn" "TEMP_DATA_STALE" "WARNING" 5] := by
    simp [latchAlarm, allOutputsOff, fullHistApp, severityOf, strContains,
      hasSub, leadsWith]
  rw [h]
  simp

/-- C9 amended: the PERSISTED alarm history (the `alarms.json` contents
written by `save_alarms_to_disk`) is capped at 1000 records with the
oldest dropped first, and every latch appends at most one record; the
in-memory history list is not truncated by the latch itself. -/
theorem alarm_history_cap_amended :
    (∀ h : List AlarmRecord, (saveAlarmsToDisk h).length ≤ 1000) ∧
    (∀ h : List AlarmRecord, (saveAlarmsToDisk h).IsSuffix h) ∧
    (∀ h : List AlarmRecord, h.length ≤ 1000 → saveAlarmsToDisk h = h) ∧
    (∀ reason now newId cmd app loop,
      (latchAlarm reason now newId cmd app loop).app.alarmHistory.length ≤
        app.alarmHistory.length + 1) ∧
    (∀ reason now newId cmd app loop,
      (latchAlarm reason now newId cmd app loop).app.persistedAlarms =
          app.persistedAlarms ∨
        (latchAlarm reason now newId cmd app loop).app.persistedAlarms.length ≤
          1000) := by
  have hlen : ∀ h : List AlarmRecord, (saveAlarmsToDisk h).length ≤ 1000 := by
    intro h
    simp only [saveAlarmsToDisk, List.length_drop]
    omega
  refine ⟨hlen, ?_, ?_, ?_, ?_⟩
  · intro h
    exact List.drop_suffix _ _
  · intro h hle
    have : h.length - 1000 = 0 := by omega
    simp [saveAlarmsToDisk, this]
  · intro reason now newId cmd app loop
    by_cases hdup : (app.activeAlarms.any fun a => a.rtype == reason && !a.cleared) = true <;>
      simp [latchAlarm, allOutputsOff, hdup]
  · intro reason now newId cmd app loop
    by_cases hdup : (app.activeAlarms.any fun a => a.rtype == reason && !a.cleared) = true
    · left
      simp [latchAlarm, allOutputsOff, hdup]
    · right
      simp only [latchAlarm, allOutputsOff, hdup]
      simp [hdup, hlen]

/-- Witness for the amended C9: a short history is persisted unchanged and
the cap holds on it. -/
theorem alarm_history_cap_amended_witness :
    saveAlarmsToDisk [histRecord] = [histRecord] ∧
    (saveAlarmsToDisk [histRecord]).length ≤ 1000 :=
  ⟨alarm_history_cap_amended.2.2.1 [histRecord] (by simp),
   alarm_history_cap_amended.1 [histRecord]⟩

/- ------------------------------------------------------------------
Theorems: SET_MOTOR cold-extrusion gating (claim C6)
------------------------------------------------------------------ -/

/-- C6: with fresh temperatures and a nonzero requested rpm, a SET_MOTOR
command in AUTO mode with both heater zones at 100 °C is rejected with
COLD_EXTRUSION_PROTECTION and both motor outputs are forced to zero; with
both zones at 200 °C it is accepted and the motor runs at the requested
rpm; in MANUAL mode the cold-extrusion guard is bypassed. -/
theorem set_motor_cold_extrusion (pollInterval : ℚ) (motor : String) (rpm : ℚ)
    (requestTime lastToggle : ℚ) (newId : String)
    (cmd : HalCmd) (app : AppState) (loop : LoopLocals)
    (hnotalarm : app.status ≠ "ALARM")
    (hdeb : 1/4 ≤ requestTime - lastToggle)
    (hrpm : rpm ≠ 0)
    (hts : 0 < app.tempsTimestamp)
    (hfresh : requestTime - app.tempsTimestamp ≤ max 1 (pollInterval * 4))
    (hpos : 0 < requestTime - app.tempsTimestamp) :
    (app.mode = "AUTO" → app.temps.t2 = .num 100 → app.temps.t3 = .num 100 →
      (handleSetMotor pollInterval defaultLimits motor rpm requestTime
        lastToggle newId cmd app loop).success = false ∧
      (handleSetMotor pollInterval defaultLimits motor rpm requestTime
        lastToggle newId cmd app loop).msg = "COLD_EXTRUSION_PROTECTION" ∧
      (handleSetMotor pollInterval defaultLimits motor rpm requestTime
        lastToggle newId cmd app loop).cmd.motorMain = 0 ∧
      (handleSetMotor pollInterval defaultLimits motor rpm requestTime
        lastToggle newId cmd app loop).cmd.motorFeed = 0 ∧
      (handleSetMotor pollInterval defaultLimits motor rpm requestTime
        lastToggle newId cmd app loop).app.motors = ⟨0, 0⟩) ∧
    (app.mode = "AUTO" → app.temps.t2 = .num 200 → app.temps.t3 = .num 200 →
      motor = "main" →
      (handleSetMotor pollInterval defaultLimits motor rpm requestTime
        lastToggle newId cmd app loop).success = true ∧
      (handleSetMotor pollInterval defaultLimits motor rpm requestTime
        lastToggle newId cmd app loop).cmd.motorMain = rpm ∧
      (handleSetMotor pollInterval defaultLimits motor rpm requestTime
        lastToggle newId cmd app loop).app.motors.main = rpm) ∧
    (app.mode = "MANUAL" → motor = "main" →
      (handleSetMotor pollInterval defaultLimits motor rpm requestTime
        lastToggle newId cmd app loop).success = true ∧
      (handleSetMotor pollInterval defaultLimits motor rpm requestTime
        lastToggle newId cmd app loop).cmd.motorMain = rpm ∧
      (handleSetMotor pollInterval defaultLimits motor rpm requestTime
        lastToggle newId cmd app loop).app.motors.main = rpm) := by
  have hgate : ¬(app.status = "ALARM" ∧
      (app.activeAlarms.any fun a => a.severity == "CRITICAL")) := by
    intro hc
    exact hnotalarm hc.1
  have hdeb2 : ¬(requestTime - lastToggle < 1/4) := not_lt.mpr hdeb
  have hfr : (tempsFreshAt pollInterval app.tempsTimestamp requestTime).1 = true := by
    have hcond : ¬(app.tempsTimestamp ≤ 0 ∨
        max 1 (pollInterval * 4) < requestTime - app.tempsTimestamp) := by
      push_neg
      exact ⟨hts, hfresh⟩
    simp only [tempsFreshAt]
    rw [if_neg hcond]
  refine ⟨?_, ?_, ?_⟩
  · intro hmode h2 h3
    have hman : ¬(app.mode = "MANUAL") := by
      rw [hmode]; decide
    have hguard : guardMotorTemp defaultLimits app.temps.t2 app.temps.t3 =
        (false, "COLD_EXTRUSION_PROTECTION") := by
      rw [h2, h3]
      rfl
    simp only [handleSetMotor, hgate, hdeb2, hrpm, hfr, hman, hguard, hpos,
      if_false, if_true, if_neg, if_pos, ite_false, ite_true, not_false_eq_true,
      Bool.true_eq_false, ite_eq_right_iff, ite_not]
    simp [latchAlarm, allOutputsOff]
  · intro hmode h2 h3 hmotor
    have hman : ¬(app.mode = "MANUAL") := by
      rw [hmode]; decide
    have hguard : guardMotorTemp defaultLimits app.temps.t2 app.temps.t3 =
        (true, "OK") := by
      rw [h2, h3]
      rfl
    simp only [handleSetMotor, hgate, hdeb2, hrpm, hfr, hman, hguard, hpos,
      hmotor, applySetMotor]
    simp [hpos]
  · intro hmode hmotor
    simp only [handleSetMotor, hgate, hdeb2, hrpm, hfr, hmode, hmotor,
      applySetMotor]
    simp

/-- Witness for C6: Scenario A (100 °C zones, AUTO, rpm 10 rejected) and
Scenario B (200 °C zones accepted) at concrete inputs. -/
theorem set_motor_cold_extrusion_witness :
    (handleSetMotor (1/4) defaultLimits "main" 10 10 0 "w1"
      ⟨0, 0, 0, 0, false, false, 0, [], [], false⟩
      { status := "READY", mode := "AUTO", targetZ1 := 200, targetZ2 := 200,
        temps := ⟨.num 100, .num 100, .num 30⟩, tempsTimestamp := 19/2,
        motors := ⟨0, 0⟩, relays := ⟨false, false⟩, pwm := [],
        peltierDuty := 0, heaterDutyZ1 := 0, heaterDutyZ2 := 0,
        manualDutyZ1 := 0, manualDutyZ2 := 0, activeAlarms := [],
        alarmHistory := [], persistedAlarms := [], seqStartTime := 0,
        autotuneStatus := "IDLE", autotuneCycle := 0, autotuneResult := none }
      ⟨9, some "READY", [], ⟨0, 0⟩, ⟨false, false⟩, [], none, false, false,
       false, true⟩).msg = "COLD_EXTRUSION_PROTECTION" ∧
    (handleSetMotor (1/4) defaultLimits "main" 10 10 0 "w1"
      ⟨0, 0, 0, 0, false, false, 0, [], [], false⟩
      { status := "READY", mode := "AUTO", targetZ1 := 200, targetZ2 := 200,
        temps := ⟨.num 200, .num 200, .num 30⟩, tempsTimestamp := 19/2,
        motors := ⟨0, 0⟩, relays := ⟨false, false⟩, pwm := [],
        peltierDuty := 0, heaterDutyZ1 := 0, heaterDutyZ2 := 0,
        manualDutyZ1 := 0, manualDutyZ2 := 0, activeAlarms := [],
        alarmHistory := [], persistedAlarms := [], seqStartTime := 0,
        autotuneStatus := "IDLE", autotuneCycle := 0, autotuneResult := none }
      ⟨9, some "READY", [], ⟨0, 0⟩, ⟨false, false⟩, [], none, false, false,
       false, true⟩).cmd.motorMain = 10 := by
  constructor
  · exact ((set_motor_cold_extrusion (1/4) "main" 10 10 0 "w1" _ _ _
      (by decide) (by norm_num) (by norm_num) (by norm_num) (by norm_num)
      (by norm_num)).1 rfl rfl rfl).2.1
  · exact ((set_motor_cold_extrusion (1/4) "main" 10 10 0 "w1" _ _ _
      (by decide) (by norm_num) (by norm_num) (by norm_num) (by norm_num)
      (by norm_num)).2.1 rfl rfl rfl rfl).2.1

/-- C8: the result computation fails with fewer than four recorded peaks;
on the Scenario C peak train it finds Pu = 10 and amplitude = 10 exactly,
and with relay power 50 the ultimate gain is 20/π ≈ 6.366 (within 0.001). -/
theorem autotune_result_contract :
    (∀ peaks : List Peak, peaks.length < 4 → calculateResult peaks = none) ∧
    calculateResult scenarioPeaks = some (10, 10) ∧
    tunerKu 50 10 = 20 / Real.pi ∧
    |tunerKu 50 10 - 6.366| < 1/1000 := by
  have hpi1 : (3.141592 : ℝ) < Real.pi := Real.pi_gt_d6
  have hpi2 : Real.pi < 3.141593 := Real.pi_lt_d6
  have hku : tunerKu 50 10 = 20 / Real.pi := by
    rw [tunerKu]
    push_cast
    rw [div_eq_div_iff (by positivity) (by positivity)]
    ring
  have hscen : calculateResult scenarioPeaks = some (10, 10) := by
    have hne : ¬(("min" : String) = "max") := by decide
    have hne2 : ¬(("max" : String) = "min") := by decide
    norm_num [calculateResult, periodsOf, scenarioPeaks, List.filterMap_cons,
      List.filter_cons, hne, hne2]
    intro h
    exact absurd h (List.cons_ne_nil _ _)
  refine ⟨?_, hscen, hku, ?_⟩
  · intro peaks h
    simp [calculateResult, h]
  · rw [hku, abs_sub_lt_iff]
    have hpos : (0 : ℝ) < 3.141592 := by norm_num
    have hub : 20 / Real.pi < 20 / 3.141592 := by
      apply div_lt_div_of_pos_left (by norm_num) hpos hpi1
    have hlb : 20 / 3.141593 < 20 / Real.pi := by
      apply div_lt_div_of_pos_left (by norm_num) (lt_trans hpos hpi1) hpi2
    constructor
    · have hn : (20 : ℝ) / 3.141592 < 6.367 := by norm_num
      linarith
    · have hn : (6.365 : ℝ) < 20 / 3.141593 := by norm_num
      linarith

/-- Witness for C8: three peaks are not enough for a result. -/
theorem autotune_result_contract_witness :
    calculateResult [⟨10, 110, "max"⟩, ⟨15, 90, "min"⟩, ⟨20, 110, "max"⟩] = none :=
  autotune_result_contract.1 _ (by decide)

/-- C10: provided the configured output maximum is at least 10 (the
repository constructs `AutoTuner()` with `output_max = 100`), the relay
power used by a tuning session is `min(output_max, max(10, tune_power))`,
hence never below 10 and never above the output maximum. -/
theorem autotune_start_power (s : TunerState) (zone : String) (sp p now : ℚ)
    (h : 10 ≤ s.outputMax) :
    (AutoTuner.start s zone sp p now).tunePower = min s.outputMax (max 10 p) ∧
    10 ≤ (AutoTuner.start s zone sp p now).tunePower ∧
    (AutoTuner.start s zone sp p now).tunePower ≤ s.outputMax := by
  have h1 : (AutoTuner.start s zone sp p now).tunePower = max 10 (min s.outputMax p) := by
    simp [AutoTuner.start, AutoTuner.reset, AutoTuner.init]
  have h2 : max 10 (min s.outputMax p) = min s.outputMax (max 10 p) := by
    rw [max_min_distrib_left, max_eq_right h]
  refine ⟨h1.trans h2, ?_, ?_⟩
  · rw [h1]; exact le_max_left _ _
  · rw [h1, h2]; exact min_le_left _ _

/-- Witness for C10: requesting 5 % relay power on the default
`AutoTuner(0, 100)` yields 10 %. -/
theorem autotune_start_power_witness :
    (AutoTuner.start (AutoTuner.init 0 100) "z1" 220 5 0).tunePower =
      min 100 (max 10 5) ∧
    10 ≤ (AutoTuner.start (AutoTuner.init 0 100) "z1" 220 5 0).tunePower := by
  have h := autotune_start_power (AutoTuner.init 0 100) "z1" 220 5 0
    (by norm_num [AutoTuner.init])
  exact ⟨by simpa [AutoTuner.init] using h.1, h.2.1⟩

/- ------------------------------------------------------------------
Theorems: the stale-sensor interlock on a control tick (claim C1)
------------------------------------------------------------------ -/

/-- The model `_set_status` never touches the temperature snapshot. -/
theorem setStatus_temps (app : AppState) (s : String) (now : ℚ) :
    (setStatus app s now).temps = app.temps := by
  simp only [setStatus]
  split_ifs <;> rfl

/-- The model `_set_status` never touches the temperature timestamp. -/
theorem setStatus_tempsTimestamp (app : AppState) (s : String) (now : ℚ) :
    (setStatus app s now).tempsTimestamp = app.tempsTimestamp := by
  simp only [setStatus]
  split_ifs <;> rfl

/-- The model `_set_status` always installs the requested status. -/
theorem setStatus_status (app : AppState) (s : String) (now : ℚ) :
    (setStatus app s now).status = s := by
  simp only [setStatus]
  split_ifs <;> rfl

/-- The model `_latch_alarm` always enters ALARM. -/
theorem latchAlarm_app_status (reason : String) (now : ℚ) (newId : String)
    (cmd : HalCmd) (app : AppState) (loop : LoopLocals) :
    (latchAlarm reason now newId cmd app loop).app.status = "ALARM" := by
  simp only [latchAlarm, allOutputsOff]

/-- After `_latch_alarm(reason)` the active set holds an uncleared record
with that reason (either the pre-existing one or the freshly created one). -/
theorem latchAlarm_active_witness (reason : String) (now : ℚ) (newId : String)
    (cmd : HalCmd) (app : AppState) (loop : LoopLocals) :
    ∃ a ∈ (latchAlarm reason now newId cmd app loop).app.activeAlarms,
      a.rtype = reason ∧ a.cleared = false := by
  by_cases hdup : (app.activeAlarms.any fun a => a.rtype == reason && !a.cleared) = true
  · have hact : (latchAlarm reason now newId cmd app loop).app.activeAlarms =
        app.activeAlarms := by
      simp only [latchAlarm, allOutputsOff]
      simp [hdup]
    obtain ⟨a, ha, hp⟩ := List.any_eq_true.mp hdup
    rw [Bool.and_eq_true] at hp
    refine ⟨a, by rw [hact]; exact ha, ?_, ?_⟩
    · exact beq_iff_eq.mp hp.1
    · simpa using hp.2
  · have hact : (latchAlarm reason now newId cmd app loop).app.activeAlarms =
        app.activeAlarms ++ [createAlarmObject newId reason (severityOf reason) now] := by
      simp only [latchAlarm, allOutputsOff]
      simp [hdup]
    refine ⟨createAlarmObject newId reason (severityOf reason) now, ?_, rfl, rfl⟩
    rw [hact]
    exact List.mem_append_right _ (by simp)

/-- Each sequencer fold step only drives motors and relays: the status,
temperature timestamp and alarm sets of the shared state are untouched. -/
theorem seqStepFold_app_fields (phase : String) (elapsed : ℚ)
    (snapM : MotorsState) (acc : List String × HalCmd × AppState) (step : SeqStep) :
    ((seqStepFold phase elapsed snapM acc step).2.2.tempsTimestamp =
      acc.2.2.tempsTimestamp) ∧
    ((seqStepFold phase elapsed snapM acc step).2.2.status = acc.2.2.status) ∧
    ((seqStepFold phase elapsed snapM acc step).2.2.activeAlarms =
      acc.2.2.activeAlarms) := by
  simp only [seqStepFold, applySequenceAction]
  split_ifs <;> simp

/-- Folded over any step list, the sequencer preserves those fields. -/
theorem foldl_seqStepFold_app (phase : String) (elapsed : ℚ)
    (snapM : MotorsState) (steps : List SeqStep) :
    ∀ acc : List String × HalCmd × AppState,
      ((steps.foldl (seqStepFold phase elapsed snapM) acc).2.2.tempsTimestamp =
        acc.2.2.tempsTimestamp) ∧
      ((steps.foldl (seqStepFold phase elapsed snapM) acc).2.2.status =
        acc.2.2.status) ∧
      ((steps.foldl (seqStepFold phase elapsed snapM) acc).2.2.activeAlarms =
        acc.2.2.activeAlarms) := by
  induction steps with
  | nil => intro acc; exact ⟨rfl, rfl, rfl⟩
  | cons s ss ih =>
    intro acc
    have h1 := seqStepFold_app_fields phase elapsed snapM acc s
    have h2 := ih (seqStepFold phase elapsed snapM acc s)
    exact ⟨h2.1.trans h1.1, h2.2.1.trans h1.2.1, h2.2.2.trans h1.2.2⟩

/-- The model `_process_sequence_phase` preserves the temperature timestamp. -/
theorem processSequencePhase_tempsTimestamp (phase : String)
    (cfgSteps : List SeqStep) (t0 now : ℚ) (done : List String)
    (snapM : MotorsState) (cmd : HalCmd) (app : AppState) :
    (processSequencePhase phase cfgSteps t0 now done snapM cmd app).2.2.2.tempsTimestamp =
      app.tempsTimestamp := by
  simp only [processSequencePhase]
  exact (foldl_seqStepFold_app _ _ _ _ _).1

/-- A tick with no emergency button, no pending clear and a nonzero poll
clock just records the button edges and proceeds. -/
theorem tickButtons_quiet (inp : HalIn) (w : World) (now : ℚ) (newId : String)
    (hpend : w.loop.alarmClearPending = false)
    (hem : inp.btnEmergency = false)
    (hpoll : w.loop.lastPollTime ≠ 0) :
    tickButtons inp w now newId =
      Sum.inr ({ w with loop := { w.loop with lastBtnStart := inp.btnStart,
                                              lastBtnStop := inp.btnStop } },
        ⟨inp.btnStart && !w.loop.lastBtnStart, inp.btnStop && !w.loop.lastBtnStop,
         none⟩) := by
  simp [tickButtons, hpend, hem, hpoll]

/-- Facts about the poll stage: status and run permission are untouched, a
nonzero shared hardware timestamp is preserved, and the temperature
snapshot afterwards is either the fresh hardware readings or the old one. -/
theorem tickPoll_facts (cfg : Cfg) (inp : HalIn) (w : World) (now : ℚ)
    (se : Bool) (ts : ℚ)
    (h1 : w.app.tempsTimestamp = ts) (h2 : inp.lastTempTs = ts) (h3 : ts ≠ 0) :
    ((tickPoll cfg inp w now se).1.app.status = w.app.status) ∧
    ((tickPoll cfg inp w now se).1.app.tempsTimestamp = ts) ∧
    ((tickPoll cfg inp w now se).1.app.temps = inp.temps ∨
     (tickPoll cfg inp w now se).1.app.temps = w.app.temps) ∧
    ((tickPoll cfg inp w now se).1.loop.runningEvent = w.loop.runningEvent) := by
  simp only [tickPoll]
  split_ifs with h hts0
  · exact ⟨rfl, h2, Or.inl rfl, rfl⟩
  · exact absurd (h2.symm.trans (not_not.mp hts0)) h3
  · exact ⟨rfl, h1, Or.inr rfl, rfl⟩

/-- With no button edges, no prior alarm request, run permission granted, a
non-Alarm status and a passing safety check, the command stage latches
nothing: it yields no alarm request and at most applies the
STOPPING-with-idle-motors shortcut to READY. -/
theorem stoppingShortcut_cases (w : World) (now : ℚ) :
    stoppingShortcut w now =
        ({ w with app := setStatus w.app "READY" now },
         (setStatus w.app "READY" now).status) ∨
    stoppingShortcut w now = (w, w.app.status) := by
  unfold stoppingShortcut
  split_ifs with h
  · left; rfl
  · right; rfl

theorem tickCommands_quiet (cfg : Cfg) (inp : HalIn) (w : World) (now : ℚ)
    (newId : String) (sp : Bool)
    (hrun : w.loop.runningEvent = true)
    (hstatus : w.app.status = "READY" ∨ w.app.status = "STARTING" ∨
               w.app.status = "RUNNING" ∨ w.app.status = "STOPPING")
    (hsafe : (safetyCheck cfg.limits inp.motorFault
        w.app.temps.motor w.app.temps.t2 w.app.temps.t3).1 = true) :
    (tickCommands cfg inp w now newId ⟨false, false, none⟩ sp).2 = none ∧
    ((tickCommands cfg inp w now newId ⟨false, false, none⟩ sp).1 = w ∨
     (tickCommands cfg inp w now newId ⟨false, false, none⟩ sp).1 =
       { w with app := setStatus w.app "READY" now }) := by
  rcases stoppingShortcut_cases w now with hs | hs
  · constructor
    · simp +decide [tickCommands, hs, setStatus_status, setStatus_temps,
        hrun, hsafe]
    · right
      simp +decide [tickCommands, hs, setStatus_status, setStatus_temps,
        hrun, hsafe]
  · rcases hstatus with hst | hst | hst | hst <;> constructor <;>
      simp +decide [tickCommands, hs, hst, hrun, hsafe]

/-- With run permission and a non-Alarm status, the sequence stage never
ends the tick and preserves the temperature timestamp (the sequences only
drive motors and relays, and the transitions only move between non-Alarm
states). -/
theorem tickSeqBookkeeping_facts (w : World) (now : ℚ) :
    ((tickSeqBookkeeping w now).1.app.status = w.app.status) ∧
    ((tickSeqBookkeeping w now).1.app.tempsTimestamp = w.app.tempsTimestamp) ∧
    ((tickSeqBookkeeping w now).1.loop.runningEvent = w.loop.runningEvent) := by
  simp only [tickSeqBookkeeping]
  split_ifs <;> exact ⟨rfl, rfl, rfl⟩

theorem tickSeqPhases_tempsTimestamp (cfg : Cfg) (w : World) (statusL : String)
    (seqStartL now : ℚ) :
    (tickSeqPhases cfg w statusL seqStartL now).app.tempsTimestamp =
      w.app.tempsTimestamp := by
  simp only [tickSeqPhases]
  split_ifs <;> simp [processSequencePhase_tempsTimestamp]

theorem tickSequences_nonalarm (cfg : Cfg) (w : World) (now : ℚ)
    (hrun : w.loop.runningEvent = true)
    (hstatus : w.app.status = "READY" ∨ w.app.status = "STARTING" ∨
               w.app.status = "RUNNING" ∨ w.app.status = "STOPPING") :
    ∃ w5, tickSequences cfg w now = Sum.inr w5 ∧
      w5.app.tempsTimestamp = w.app.tempsTimestamp := by
  have hw1 : ({ w with loop := { w.loop with tempsLocal := some w.app.temps } }
      : World).loop.runningEvent = true := hrun
  have hb := tickSeqBookkeeping_facts
    { w with loop := { w.loop with tempsLocal := some w.app.temps } } now
  have hbrun : (tickSeqBookkeeping
      { w with loop := { w.loop with tempsLocal := some w.app.temps } } now).1.loop.runningEvent
      = true := hb.2.2.trans hw1
  have hbts : (tickSeqBookkeeping
      { w with loop := { w.loop with tempsLocal := some w.app.temps } } now).1.app.tempsTimestamp
      = w.app.tempsTimestamp := hb.2.1
  have hne : (w.app.status = "ALARM") = False := by
    rcases hstatus with h | h | h | h <;> rw [h] <;> exact eq_false (by decide)
  refine ⟨tickSeqPhases cfg
      (tickSeqBookkeeping
        { w with loop := { w.loop with tempsLocal := some w.app.temps } } now).1
      w.app.status
      (tickSeqBookkeeping
        { w with loop := { w.loop with tempsLocal := some w.app.temps } } now).2
      now, ?_, ?_⟩
  · simp [tickSequences, hbrun, hne]
  · rw [tickSeqPhases_tempsTimestamp]
    exact hbts

/-- When the data is stale beyond the effective freshness timeout and no
other alarm cause fired this tick, the stale stage ends the tick latching
TEMP_DATA_STALE with both heaters forced off. -/
theorem tickStale_latches (cfg : Cfg) (inp : HalIn) (w : World) (now ts : ℚ)
    (newId : String)
    (hts : w.app.tempsTimestamp = ts)
    (hstale : cfg.freshnessTimeout.getD (cfg.pollInterval * 4) < now - ts) :
    ∃ w6, tickStale cfg inp w now newId none = Sum.inl w6 ∧
      w6.app.status = "ALARM" ∧
      (∃ a ∈ w6.app.activeAlarms, a.rtype = "TEMP_DATA_STALE" ∧ a.cleared = false) ∧
      w6.cmd.heaterZ1 = 0 ∧ w6.cmd.heaterZ2 = 0 ∧
      w6.app.heaterDutyZ1 = 0 ∧ w6.app.heaterDutyZ2 = 0 := by
  have hcond : ¬(w.app.tempsTimestamp ≠ 0 ∧
      now - w.app.tempsTimestamp ≤ cfg.freshnessTimeout.getD (cfg.pollInterval * 4)) := by
    rw [hts]
    intro hc
    exact absurd hc.2 (not_le.mpr hstale)
  refine ⟨{ w with
      cmd := { (latchAlarm "TEMP_DATA_STALE" now newId w.cmd w.app w.loop).cmd with
        heaterZ1 := 0, heaterZ2 := 0 },
      app := { (latchAlarm "TEMP_DATA_STALE" now newId w.cmd w.app w.loop).app with
        heaterDutyZ1 := 0, heaterDutyZ2 := 0 },
      loop := (latchAlarm "TEMP_DATA_STALE" now newId w.cmd w.app w.loop).loop },
    ?_, ?_, ?_, rfl, rfl, rfl, rfl⟩
  · simp only [tickStale]
    rw [if_pos (Or.inl hcond)]
    rfl
  · show (latchAlarm "TEMP_DATA_STALE" now newId w.cmd w.app w.loop).app.status =
      "ALARM"
    exact latchAlarm_app_status "TEMP_DATA_STALE" now newId w.cmd w.app w.loop
  · show ∃ a ∈ (latchAlarm "TEMP_DATA_STALE" now newId w.cmd w.app w.loop).app.activeAlarms,
      a.rtype = "TEMP_DATA_STALE" ∧ a.cleared = false
    exact latchAlarm_active_witness "TEMP_DATA_STALE" now newId w.cmd w.app w.loop

/-- C1 amended: on a tick with run permission, no pending alarm-clear, no
emergency or start/stop button edge, a passing safety check and a
non-Alarm status — in both AUTO and MANUAL mode — a shared temperature
timestamp older than `max(1.0, 4*poll_interval)` (which bounds the
effective freshness timeout both in the shipped configuration and in the
no-config default) forces both heater outputs to zero and latches
TEMP_DATA_STALE on that same tick, overriding the PID/Auto-Tuner output
stage, which is never reached.  In the ALARM state the tick instead ends
in the emergency branch and no TEMP_DATA_STALE is latched
(see the counterexample). -/
theorem stale_interlock_amended (cfg : Cfg) (inp : HalIn) (w : World)
    (now ts : ℚ) (newId : String)
    (hpend : w.loop.alarmClearPending = false)
    (hrun : w.loop.runningEvent = true)
    (hpoll0 : w.loop.lastPollTime ≠ 0)
    (hem : inp.btnEmergency = false)
    (hbs : inp.btnStart = false)
    (hbt : inp.btnStop = false)
    (hstatus : w.app.status = "READY" ∨ w.app.status = "STARTING" ∨
               w.app.status = "RUNNING" ∨ w.app.status = "STOPPING")
    (hsafe1 : (safetyCheck cfg.limits inp.motorFault
        inp.temps.motor inp.temps.t2 inp.temps.t3).1 = true)
    (hsafe2 : (safetyCheck cfg.limits inp.motorFault
        w.app.temps.motor w.app.temps.t2 w.app.temps.t3).1 = true)
    (hts1 : w.app.tempsTimestamp = ts)
    (hts2 : inp.lastTempTs = ts)
    (hts3 : ts ≠ 0)
    (hage : max 1 (4 * cfg.pollInterval) < now - ts)
    (hft : cfg.freshnessTimeout.getD (cfg.pollInterval * 4) ≤
      max 1 (4 * cfg.pollInterval)) :
    (controlTick cfg inp w now newId).app.status = "ALARM" ∧
    (∃ a ∈ (controlTick cfg inp w now newId).app.activeAlarms,
       a.rtype = "TEMP_DATA_STALE" ∧ a.cleared = false) ∧
    (controlTick cfg inp w now newId).cmd.heaterZ1 = 0 ∧
    (controlTick cfg inp w now newId).cmd.heaterZ2 = 0 ∧
    (controlTick cfg inp w now newId).app.heaterDutyZ1 = 0 ∧
    (controlTick cfg inp w now newId).app.heaterDutyZ2 = 0 := by
  have hA := tickButtons_quiet inp w now newId hpend hem hpoll0
  rw [hbs, hbt] at hA
  simp only [Bool.false_and] at hA
  set w1 : World := { w with loop := { w.loop with lastBtnStart := false,
                                                   lastBtnStop := false } } with hw1
  have hBf := tickPoll_facts cfg inp w1 now false ts hts1 hts2 hts3
  set w2 : World := (tickPoll cfg inp w1 now false).1 with hw2
  have hrun2 : w2.loop.runningEvent = true := by
    rw [hBf.2.2.2]
    exact hrun
  have hstatus2 : w2.app.status = "READY" ∨ w2.app.status = "STARTING" ∨
      w2.app.status = "RUNNING" ∨ w2.app.status = "STOPPING" := by
    rw [hBf.1]
    exact hstatus
  have hsafeW2 : (safetyCheck cfg.limits inp.motorFault
      w2.app.temps.motor w2.app.temps.t2 w2.app.temps.t3).1 = true := by
    rcases hBf.2.2.1 with h | h <;> rw [h]
    · exact hsafe1
    · exact hsafe2
  have hC := tickCommands_quiet cfg inp w2 now newId
    (tickPoll cfg inp w1 now false).2 hrun2 hstatus2 hsafeW2
  set w3 : World :=
    (tickCommands cfg inp w2 now newId ⟨false, false, none⟩
      (tickPoll cfg inp w1 now false).2).1 with hw3
  have hrun3 : w3.loop.runningEvent = true := by
    rcases hC.2 with h | h <;> rw [h]
    · exact hrun2
    · exact hrun2
  have hstatus3 : w3.app.status = "READY" ∨ w3.app.status = "STARTING" ∨
      w3.app.status = "RUNNING" ∨ w3.app.status = "STOPPING" := by
    rcases hC.2 with h | h <;> rw [h]
    · exact hstatus2
    · left
      exact setStatus_status _ _ _
  have hts4 : w3.app.tempsTimestamp = ts := by
    rcases hC.2 with h | h <;> rw [h]
    · exact hBf.2.1
    · rw [show ({ w2 with app := setStatus w2.app "READY" now } : World).app =
        setStatus w2.app "READY" now from rfl]
      rw [setStatus_tempsTimestamp]
      exact hBf.2.1
  obtain ⟨w5, hD, hDts⟩ := tickSequences_nonalarm cfg w3 now hrun3 hstatus3
  have hts5 : w5.app.tempsTimestamp = ts := hDts.trans hts4
  obtain ⟨w6, hE, hE1, hE2, hE3, hE4, hE5, hE6⟩ :=
    tickStale_latches cfg inp w5 now ts newId hts5 (lt_of_le_of_lt hft hage)
  have hfinal : controlTick cfg inp w now newId = w6 := by
    simp only [controlTick, hA]
    rw [← hw2, ← hw3]
    simp only [hC.1, hD, hE]
  rw [hfinal]
  exact ⟨hE1, hE2, hE3, hE4, hE5, hE6⟩

/-- Witness for the amended C1 (Scenario D): a RUNNING/AUTO tick at t = 100
with the temperature timestamp stuck at t = 1 latches TEMP_DATA_STALE and
forces both heaters to zero. -/
theorem stale_interlock_amended_witness :
    (controlTick wdCfg wdInp wdWorld 100 "idw").app.status = "ALARM" ∧
    (∃ a ∈ (controlTick wdCfg wdInp wdWorld 100 "idw").app.activeAlarms,
      a.rtype = "TEMP_DATA_STALE" ∧ a.cleared = false) ∧
    (controlTick wdCfg wdInp wdWorld 100 "idw").cmd.heaterZ1 = 0 ∧
    (controlTick wdCfg wdInp wdWorld 100 "idw").cmd.heaterZ2 = 0 := by
  have h := stale_interlock_amended wdCfg wdInp wdWorld 100 1 "idw"
    rfl rfl (by norm_num [wdWorld, wdLoop]) rfl rfl rfl
    (Or.inr (Or.inr (Or.inl rfl)))
    rfl rfl
    rfl rfl (by norm_num)
    (by norm_num [wdCfg])
    (by norm_num [wdCfg])
  exact ⟨h.1, h.2.1, h.2.2.1, h.2.2.2.1⟩

/-- Counterexample to C1 as stated ("in every state"): in the ALARM state
with a stale temperature timestamp (age 99 s, far beyond
max(1.0, 4x0.25) = 1 s), the tick ends in the emergency branch before the
stale-sensor check: no TEMP_DATA_STALE alarm is latched on that tick and
the heater commands are not rewritten to zero (the stale heater command 55
survives the tick). -/
theorem stale_interlock_cex :
    (max 1 (4 * cexCfg.pollInterval) < 100 - cexWorld.app.tempsTimestamp) ∧
    ((controlTick cexCfg cexInp cexWorld 100 "idc").app.activeAlarms.any
      fun a => a.rtype == "TEMP_DATA_STALE") = false ∧
    (controlTick cexCfg cexInp cexWorld 100 "idc").cmd.heaterZ1 = 55 := by
  have h1 : tickButtons cexInp cexWorld 100 "idc" =
      Sum.inr (cexWorld, ⟨false, false, none⟩) := by
    rw [tickButtons_quiet cexInp cexWorld 100 "idc" rfl rfl
      (by norm_num [cexWorld, cexLoop])]
    rfl
  have h2 : tickPoll cexCfg cexInp cexWorld 100 false = (cexWorld, false) := by
    norm_num [tickPoll, cexCfg, cexWorld, cexLoop]
  have h3 : tickCommands cexCfg cexInp cexWorld 100 "idc" ⟨false, false, none⟩
      false = (cexWorld, none) := by
    norm_num +decide [tickCommands, stoppingShortcut, cexWorld, cexLoop, cexApp]
  have h4 : tickSequences cexCfg cexWorld 100 =
      Sum.inl { cexWorld with
        loop := { cexLoop with tempsLocal := some cexApp.temps },
        cmd := { cexCmd with led := decide (⌊(100 : ℚ) * 10⌋ % 2 = 0) } } := by
    norm_num +decide [tickSequences, tickSeqBookkeeping, tickSeqAlarm,
      processSequencePhase, seqStepFold, defaultOffSteps, cexWorld, cexLoop,
      cexApp, cexCmd, cexCfg]
  have hfinal : controlTick cexCfg cexInp cexWorld 100 "idc" =
      { cexWorld with
        loop := { cexLoop with tempsLocal := some cexApp.temps },
        cmd := { cexCmd with led := decide (⌊(100 : ℚ) * 10⌋ % 2 = 0) } } := by
    simp only [controlTick, h1, h2, h3, h4]
  refine ⟨by norm_num [cexCfg, cexWorld, cexApp], ?_, ?_⟩
  · rw [hfinal]
    simp +decide [cexWorld, cexApp, cexAlarm]
  · rw [hfinal]
    rfl

end TVE

